import Mathlib

/-!
# REST API controller (`modules/api_rest/api_rest_controller.go`)

A shallow embedding of the request handlers of the `api_rest` module and the
properties of its routes.

* Go `string` is `String`; `[]byte(s)` is the list of its UTF-8 bytes.
* The `http.ResponseWriter` is a record of the header map, the status line
  (absent until the first `WriteHeader` / `Write`) and the chunks written.
* `session.I` is explicit state: the session data, the state of its mutex and
  the trace of the calls made while a request is served (into the collaborators
  of the gateway, and from the `switch` of `sessionRoute` to its handlers).
* The types of the session's substructures and of its events live in other
  packages; the development is parametric in them (`V`, `E`).
-/

namespace ApiRest

/-! ## Go runtime and standard library -/

/-- UTF-8 encoding of one rune, as a list of bytes. -/
def utf8Bytes (c : Char) : List Nat :=
  let v := c.toNat
  if v ≤ 0x7F then [v]
  else if v ≤ 0x7FF then [0xC0 + v / 64, 0x80 + v % 64]
  else if v ≤ 0xFFFF then [0xE0 + v / 4096, 0x80 + v / 64 % 64, 0x80 + v % 64]
  else [0xF0 + v / 262144, 0x80 + v / 4096 % 64, 0x80 + v / 64 % 64, 0x80 + v % 64]

/-- The conversion `[]byte(s)`: the bytes of a string. -/
def bytes (s : String) : List Nat :=
  s.toList.flatMap utf8Bytes

/-- A run-time fault that keeps a handler from returning normally. -/
inductive Fault where
  | blocked
  | panic (msg : String)
  deriving DecidableEq, Repr

/-- Two's-complement wrap-around of 64-bit `int` arithmetic. -/
def wrap64 (x : Int) : Int :=
  (x + 2 ^ 63) % 2 ^ 64 - 2 ^ 63

/-- The slice expression `xs[low:]`; it panics unless `0 <= low <= len(xs)`. -/
def sliceFrom {α : Type} (xs : List α) (low : Int) : Except Fault (List α) :=
  if low < 0 ∨ (xs.length : Int) < low then
    .error (.panic "slice bounds out of range")
  else
    .ok (xs.drop low.toNat)

namespace subtle

/-- Go: `int((uint32(x^y) - 1) >> 31)` on two bytes. -/
def ConstantTimeByteEq (x y : Nat) : Nat :=
  (((x ^^^ y) % 2 ^ 32 + 2 ^ 32 - 1) % 2 ^ 32) >>> 31

/-- Go: `crypto/subtle.ConstantTimeCompare`: the length test, then the
accumulation `v |= x[i] ^ y[i]` in a byte, then `ConstantTimeByteEq(v, 0)`. -/
def ConstantTimeCompare (x y : List Nat) : Nat :=
  if x.length ≠ y.length then 0
  else
    ConstantTimeByteEq
      ((x.zip y).foldl (fun v p => (v ||| (p.1 ^^^ p.2)) % 256) 0) 0

end subtle

namespace unicode

/-- Go: `unicode.ToLower`. ASCII is handled inline; every other rune goes through
the case tables of package `unicode`, which are the argument `tbl`. -/
def ToLower (tbl : Char → Char) (r : Char) : Char :=
  if r.toNat ≤ 0x7F then
    if 'A'.toNat ≤ r.toNat ∧ r.toNat ≤ 'Z'.toNat then Char.ofNat (r.toNat + 32) else r
  else tbl r

end unicode

namespace strings

/-- Go: `strings.ToLower`: every rune mapped through `unicode.ToLower` (the ASCII
fast path of the library computes the same string). -/
def ToLower (tbl : Char → Char) (s : String) : String :=
  String.mk (s.toList.map (unicode.ToLower tbl))

/-- Go: `strings.HasPrefix`. -/
def HasPrefix (s p : String) : Bool :=
  p.toList.isPrefixOf s.toList

end strings

namespace strconv

/-- The decimal digits `'0'..'9'`. -/
def isDigit (c : Char) : Bool :=
  decide ('0'.toNat ≤ c.toNat ∧ c.toNat ≤ '9'.toNat)

/-- The value of a string of decimal digits. -/
def digitsValue (ds : List Char) : Nat :=
  ds.foldl (fun a d => 10 * a + (d.toNat - '0'.toNat)) 0

/-- Go: `strconv.Atoi` on a 64-bit platform, `none` standing for a non-nil error:
an optional sign, then at least one decimal digit and nothing else (syntax error
otherwise), with a value in the range of `int` (range error otherwise). -/
def Atoi (s : String) : Option Int :=
  match s.toList with
  | [] => none
  | c :: cs =>
    let neg := decide (c = '-')
    let ds := if c = '+' ∨ c = '-' then cs else c :: cs
    if ds.isEmpty then none
    else if ds.all isDigit then
      let un := digitsValue ds
      if neg then (if 2 ^ 63 < un then none else some (-(un : Int)))
      else (if 2 ^ 63 ≤ un then none else some (un : Int))
    else none

end strconv

namespace textproto

/-- The bytes allowed in a header field name (RFC 7230 token characters). -/
def validHeaderFieldByte (c : Char) : Bool :=
  c.isAlphanum || c.toNat ∈ [33, 35, 36, 37, 38, 39, 42, 43, 45, 46, 94, 95, 96, 124, 126]

/-- The canonicalisation loop: a letter is upper case at the start and after a
hyphen, lower case elsewhere. -/
def canonical : Bool → List Char → List Char
  | _, [] => []
  | upper, c :: cs =>
    (if upper then c.toUpper else c.toLower) :: canonical (decide (c = '-')) cs

/-- Go: `textproto.CanonicalMIMEHeaderKey`. -/
def CanonicalMIMEHeaderKey (s : String) : String :=
  if s.toList.all validHeaderFieldByte then String.mk (canonical true s.toList) else s

end textproto

/-! ## Requests, responses and the session -/

/-- Go: `CommandRequest`. -/
structure CommandRequest where
  Command : String
  deriving DecidableEq, Repr

/-- Go: `APIResponse`. -/
structure APIResponse where
  Success : Bool
  Message : String
  deriving DecidableEq, Repr

/-- A JSON value of the kinds the fields of `APIResponse` encode to. -/
inductive JSONValue where
  | bool (b : Bool)
  | str (s : String)
  deriving DecidableEq, Repr

/-- The JSON object `encoding/json` produces for an `APIResponse`: one member per
field, in declaration order, named by the field tags `json:"success"` and
`json:"msg"`. -/
def APIResponse.jsonFields (o : APIResponse) : List (String × JSONValue) :=
  [("success", .bool o.Success), ("msg", .str o.Message)]

/-- A keyed collection of the session (`session.I.Lan`, `.BLE`, `.HID`). -/
structure Collection (V : Type) where
  Get : String → Option V

/-- The wireless collection `session.I.WiFi`: stations and their clients. -/
structure WiFiCollection (V : Type) where
  Get : String → Option V
  GetClient : String → Option V

/-- The fields of `session.I` the controller reads. -/
structure Session (V E : Type) where
  Env : V
  Gateway : V
  Interface : V
  Modules : V
  Options : V
  Queue : V
  StartedAt : V
  Lan : Collection V
  WiFi : WiFiCollection V
  BLE : Collection V
  HID : Collection V
  Events : List E

/-- A value handed to `toJSON`. -/
inductive Obj (V E : Type) where
  | session (I : Session V E)
  | collection (c : Collection V)
  | wifi (c : WiFiCollection V)
  | value (v : V)
  | events (es : List E)
  | apiResponse (o : APIResponse)

/-- One write to the response body: raw bytes (`w.Write`), a line of text
(`fmt.Fprintln`, as `http.Error` does) or the JSON encoding of a value
(`json.Encoder.Encode`). -/
inductive Chunk (V E : Type) where
  | raw (s : String)
  | line (s : String)
  | json (o : Obj V E)

/-- Go: `http.ResponseWriter`. -/
structure ResponseWriter (V E : Type) where
  header : String → List String
  status : Option Nat
  body : List (Chunk V E)

/-- The writer the server hands to a handler: nothing set, nothing written. -/
def ResponseWriter.fresh (V E : Type) : ResponseWriter V E :=
  ⟨fun _ => [], none, []⟩

/-- Go: `w.Header().Set(key, value)`. -/
def ResponseWriter.Set {V E : Type} (w : ResponseWriter V E) (key value : String) :
    ResponseWriter V E :=
  { w with header := fun k =>
      if k = textproto.CanonicalMIMEHeaderKey key then [value] else w.header k }

/-- Go: `w.Header().Add(key, value)`. -/
def ResponseWriter.Add {V E : Type} (w : ResponseWriter V E) (key value : String) :
    ResponseWriter V E :=
  { w with header := fun k =>
      if k = textproto.CanonicalMIMEHeaderKey key then w.header k ++ [value] else w.header k }

/-- Go: `w.Header().Values(key)`. -/
def ResponseWriter.Values {V E : Type} (w : ResponseWriter V E) (key : String) : List String :=
  w.header (textproto.CanonicalMIMEHeaderKey key)

/-- Go: `w.WriteHeader(code)`; a second call is ignored. -/
def ResponseWriter.WriteHeader {V E : Type} (w : ResponseWriter V E) (code : Nat) :
    ResponseWriter V E :=
  match w.status with
  | none => { w with status := some code }
  | some _ => w

/-- Go: `w.Write(..)`; the first write sends status 200 if none was sent. -/
def ResponseWriter.Write {V E : Type} (w : ResponseWriter V E) (c : Chunk V E) :
    ResponseWriter V E :=
  let w := w.WriteHeader 200
  { w with body := w.body ++ [c] }

namespace http

/-- Go: `http.Error`. -/
def Error {V E : Type} (w : ResponseWriter V E) (error : String) (code : Nat) :
    ResponseWriter V E :=
  let w := w.Set "Content-Type" "text/plain; charset=utf-8"
  let w := w.Set "X-Content-Type-Options" "nosniff"
  let w := w.WriteHeader code
  w.Write (.line error)

end http

/-- Go: `*http.Request`, in the parts the controller reads. -/
structure Request where
  Method : String
  URL : String
  RemoteAddr : String
  Authorization : Option (String × String)
  Body : Option String
  Query : String → List String
  Vars : String → String

/-- Go: `r.BasicAuth()`. -/
def Request.BasicAuth (r : Request) : String × String × Bool :=
  match r.Authorization with
  | some (user, pass) => (user, pass, true)
  | none => ("", "", false)

/-- The introspection handlers `showSession`, `showEnv`, `showGateway`,
`showInterface`, `showModules`, `showLAN`, `showOptions`, `showPackets`,
`showStartedAt`, `showBLE`, `showHID` and `showWiFi`. -/
inductive Handler where
  | session | env | gateway | interface | modules | lan
  | options | packets | startedAt | ble | hid | wifi
  deriving DecidableEq, Repr

/-- A call made while a request is served: into a collaborator of the gateway
(the logger, the mutex of the session, the interpreter, the event pool) or, from
the `switch` of `sessionRoute`, to an introspection handler (`none` for the
default case). -/
inductive Effect where
  | warning (format : String) (args : List String)
  | lock
  | unlock
  | run (cmd : String)
  | clear
  | handler (h : Option Handler)
  deriving DecidableEq, Repr

/-- The shared state: `session.I`, its mutex, and the calls made so far. -/
structure World (V E : Type) where
  I : Session V E
  locked : Bool
  trace : List Effect

/-- The state after the `switch` of `sessionRoute` has called a handler. -/
def World.called {V E : Type} (s : World V E) (h : Option Handler) : World V E :=
  { s with trace := s.trace ++ [.handler h] }

/-- The collaborators whose code is outside this file: the lower-case table of
package `unicode` for runes outside ASCII, `json.NewDecoder(r.Body).Decode(&cmd)`
(`none` for an error), `session.I.Run` (the session it leaves and the text of its
error, if any), `session.I.Events.Sorted()`, `session.I.Events.Clear()` and
`startStreamingEvents`. -/
structure Ext (V E : Type) where
  lowerTable : Char → Char
  Decode : String → Option CommandRequest
  Run : String → Session V E → Session V E × Option String
  Sorted : List E → List E
  Clear : List E → List E
  startStreamingEvents : ResponseWriter V E → Request → World V E → ResponseWriter V E × World V E

/-- Go: `session.I.Lock()`. On a lock that is not free the caller waits; in this
sequential model the call does not return. -/
def World.Lock {V E : Type} (s : World V E) : Except Fault (World V E) :=
  if s.locked then .error .blocked
  else .ok { s with locked := true, trace := s.trace ++ [.lock] }

/-- Go: `session.I.Unlock()`. Unlocking a free lock is a run-time error. -/
def World.Unlock {V E : Type} (s : World V E) : Except Fault (World V E) :=
  if s.locked then .ok { s with locked := false, trace := s.trace ++ [.unlock] }
  else .error (.panic "sync: unlock of unlocked mutex")

/-- Go: `RestAPI`, in the fields the controller reads. -/
structure RestAPI where
  username : String
  password : String
  allowOrigin : String
  useWebsocket : Bool
  deriving DecidableEq, Repr

/-! ## The controller -/

namespace RestAPI

variable {V E : Type}

/-- Go: `setAuthFailed`. -/
def setAuthFailed (_mod : RestAPI) (w : ResponseWriter V E) (r : Request) (s : World V E) :
    ResponseWriter V E × World V E :=
  let s := { s with trace := s.trace ++
    [.warning "Unauthorized authentication attempt from %s to %s" [r.RemoteAddr, r.URL]] }
  let w := w.Set "WWW-Authenticate" "Basic realm=\"auth\""
  let w := w.WriteHeader 401
  let w := w.Write (.raw "Unauthorized")
  (w, s)

/-- Go: `toJSON`. The chunk written records the value handed to the encoder; the
branch taken on an encoding error only logs. -/
def toJSON (_mod : RestAPI) (w : ResponseWriter V E) (o : Obj V E) : ResponseWriter V E :=
  let w := w.Set "Content-Type" "application/json"
  w.Write (.json o)

/-- Go: `setSecurityHeaders`. -/
def setSecurityHeaders (mod : RestAPI) (w : ResponseWriter V E) : ResponseWriter V E :=
  let w := w.Add "X-Frame-Options" "DENY"
  let w := w.Add "X-Content-Type-Options" "nosniff"
  let w := w.Add "X-XSS-Protection" "1; mode=block"
  let w := w.Add "Referrer-Policy" "same-origin"
  let w := w.Set "Access-Control-Allow-Origin" mod.allowOrigin
  let w := w.Add "Access-Control-Allow-Headers"
    "Accept, Content-Type, Content-Length, Accept-Encoding, X-CSRF-Token, Authorization"
  w.Add "Access-Control-Allow-Methods" "POST, GET, OPTIONS, PUT, DELETE"

/-- Go: `checkAuth`. -/
def checkAuth (mod : RestAPI) (r : Request) : Bool :=
  if mod.username ≠ "" ∧ mod.password ≠ "" then
    let user := r.BasicAuth.1
    let pass := r.BasicAuth.2.1
    if subtle.ConstantTimeCompare (bytes user) (bytes mod.username) ≠ 1 then
      false
    else if subtle.ConstantTimeCompare (bytes pass) (bytes mod.password) ≠ 1 then
      false
    else
      true
  else
    true

/-- Go: `showSession`. -/
def showSession (mod : RestAPI) (w : ResponseWriter V E) (_r : Request) (I : Session V E) :
    ResponseWriter V E :=
  mod.toJSON w (.session I)

/-- Go: `showBLE`. -/
def showBLE (mod : RestAPI) (ext : Ext V E) (w : ResponseWriter V E) (r : Request)
    (I : Session V E) : ResponseWriter V E :=
  let mac := strings.ToLower ext.lowerTable (r.Vars "mac")
  if mac = "" then
    mod.toJSON w (.collection I.BLE)
  else
    match I.BLE.Get mac with
    | some dev => mod.toJSON w (.value dev)
    | none => http.Error w "Not Found" 404

/-- Go: `showHID`. -/
def showHID (mod : RestAPI) (ext : Ext V E) (w : ResponseWriter V E) (r : Request)
    (I : Session V E) : ResponseWriter V E :=
  let mac := strings.ToLower ext.lowerTable (r.Vars "mac")
  if mac = "" then
    mod.toJSON w (.collection I.HID)
  else
    match I.HID.Get mac with
    | some dev => mod.toJSON w (.value dev)
    | none => http.Error w "Not Found" 404

/-- Go: `showEnv`. -/
def showEnv (mod : RestAPI) (w : ResponseWriter V E) (_r : Request) (I : Session V E) :
    ResponseWriter V E :=
  mod.toJSON w (.value I.Env)

/-- Go: `showGateway`. -/
def showGateway (mod : RestAPI) (w : ResponseWriter V E) (_r : Request) (I : Session V E) :
    ResponseWriter V E :=
  mod.toJSON w (.value I.Gateway)

/-- Go: `showInterface`. -/
def showInterface (mod : RestAPI) (w : ResponseWriter V E) (_r : Request) (I : Session V E) :
    ResponseWriter V E :=
  mod.toJSON w (.value I.Interface)

/-- Go: `showModules`. -/
def showModules (mod : RestAPI) (w : ResponseWriter V E) (_r : Request) (I : Session V E) :
    ResponseWriter V E :=
  mod.toJSON w (.value I.Modules)

/-- Go: `showLAN`. -/
def showLAN (mod : RestAPI) (ext : Ext V E) (w : ResponseWriter V E) (r : Request)
    (I : Session V E) : ResponseWriter V E :=
  let mac := strings.ToLower ext.lowerTable (r.Vars "mac")
  if mac = "" then
    mod.toJSON w (.collection I.Lan)
  else
    match I.Lan.Get mac with
    | some host => mod.toJSON w (.value host)
    | none => http.Error w "Not Found" 404

/-- Go: `showOptions`. -/
def showOptions (mod : RestAPI) (w : ResponseWriter V E) (_r : Request) (I : Session V E) :
    ResponseWriter V E :=
  mod.toJSON w (.value I.Options)

/-- Go: `showPackets`. -/
def showPackets (mod : RestAPI) (w : ResponseWriter V E) (_r : Request) (I : Session V E) :
    ResponseWriter V E :=
  mod.toJSON w (.value I.Queue)

/-- Go: `showStartedAt`. -/
def showStartedAt (mod : RestAPI) (w : ResponseWriter V E) (_r : Request) (I : Session V E) :
    ResponseWriter V E :=
  mod.toJSON w (.value I.StartedAt)

/-- Go: `showWiFi`. -/
def showWiFi (mod : RestAPI) (ext : Ext V E) (w : ResponseWriter V E) (r : Request)
    (I : Session V E) : ResponseWriter V E :=
  let mac := strings.ToLower ext.lowerTable (r.Vars "mac")
  if mac = "" then
    mod.toJSON w (.wifi I.WiFi)
  else
    match I.WiFi.Get mac with
    | some station => mod.toJSON w (.value station)
    | none =>
      match I.WiFi.GetClient mac with
      | some client => mod.toJSON w (.value client)
      | none => http.Error w "Not Found" 404

/-- Go: `runSessionCommand`. -/
def runSessionCommand (mod : RestAPI) (ext : Ext V E) (w : ResponseWriter V E) (r : Request)
    (s : World V E) : ResponseWriter V E × World V E :=
  match r.Body with
  | none => (http.Error w "Bad Request" 400, s)
  | some body =>
    match ext.Decode body with
    | none => (http.Error w "Bad Request" 400, s)
    | some cmd =>
      let res := ext.Run cmd.Command s.I
      let s := { s with I := res.1, trace := s.trace ++ [.run cmd.Command] }
      match res.2 with
      | some err => (http.Error w err 400, s)
      | none => (mod.toJSON w (.apiResponse { Success := true, Message := "" }), s)

/-- Go: `showEvents`. -/
def showEvents (mod : RestAPI) (ext : Ext V E) (w : ResponseWriter V E) (r : Request)
    (s : World V E) : Except Fault (ResponseWriter V E × World V E) :=
  if mod.useWebsocket then
    .ok (ext.startStreamingEvents w r s)
  else
    let events := ext.Sorted s.I.Events
    let nevents : Int := events.length
    let nmax := nevents
    let n :=
      match r.Query "n" with
      | [] => nmax
      | v :: _ =>
        match strconv.Atoi v with
        | some n => if n > nmax then nmax else n
        | none => nmax
    match sliceFrom events (wrap64 (nevents - n)) with
    | .error f => .error f
    | .ok window => .ok (mod.toJSON w (.events window), s)

/-- Go: `clearEvents`. -/
def clearEvents (_mod : RestAPI) (ext : Ext V E) (_w : ResponseWriter V E) (_r : Request)
    (s : World V E) : World V E :=
  { s with I := { s.I with Events := ext.Clear s.I.Events }, trace := s.trace ++ [.clear] }

/-- Go: `corsRoute`. -/
def corsRoute (mod : RestAPI) (w : ResponseWriter V E) (_r : Request) : ResponseWriter V E :=
  let w := mod.setSecurityHeaders w
  w.WriteHeader 204

/-- The `switch` of `sessionRoute`, run in the state `s`: the case taken calls its
handler on `session.I` as it is in `s`, and the call is entered in the trace. -/
def dispatch (mod : RestAPI) (ext : Ext V E) (w : ResponseWriter V E) (r : Request)
    (s : World V E) : ResponseWriter V E × World V E :=
  let path := r.URL
  if path = "/api/session" then (mod.showSession w r s.I, s.called (some .session))
  else if path = "/api/session/env" then (mod.showEnv w r s.I, s.called (some .env))
  else if path = "/api/session/gateway" then (mod.showGateway w r s.I, s.called (some .gateway))
  else if path = "/api/session/interface" then
    (mod.showInterface w r s.I, s.called (some .interface))
  else if strings.HasPrefix path "/api/session/modules" then
    (mod.showModules w r s.I, s.called (some .modules))
  else if strings.HasPrefix path "/api/session/lan" then
    (mod.showLAN ext w r s.I, s.called (some .lan))
  else if path = "/api/session/options" then (mod.showOptions w r s.I, s.called (some .options))
  else if path = "/api/session/packets" then (mod.showPackets w r s.I, s.called (some .packets))
  else if path = "/api/session/started-at" then
    (mod.showStartedAt w r s.I, s.called (some .startedAt))
  else if strings.HasPrefix path "/api/session/ble" then
    (mod.showBLE ext w r s.I, s.called (some .ble))
  else if strings.HasPrefix path "/api/session/hid" then
    (mod.showHID ext w r s.I, s.called (some .hid))
  else if strings.HasPrefix path "/api/session/wifi" then
    (mod.showWiFi ext w r s.I, s.called (some .wifi))
  else (http.Error w "Not Found" 404, s.called none)

/-- Go: `sessionRoute`. The deferred `Unlock` runs when the function returns. -/
def sessionRoute (mod : RestAPI) (ext : Ext V E) (w : ResponseWriter V E) (r : Request)
    (s : World V E) : Except Fault (ResponseWriter V E × World V E) :=
  let w := mod.setSecurityHeaders w
  if !mod.checkAuth r then
    .ok (mod.setAuthFailed w r s)
  else if r.Method = "POST" then
    .ok (mod.runSessionCommand ext w r s)
  else if r.Method ≠ "GET" then
    .ok (http.Error w "Bad Request" 400, s)
  else
    match s.Lock with
    | .error f => .error f
    | .ok s =>
      let served := mod.dispatch ext w r s
      match served.2.Unlock with
      | .error f => .error f
      | .ok s => .ok (served.1, s)

/-- Go: `eventsRoute`. -/
def eventsRoute (mod : RestAPI) (ext : Ext V E) (w : ResponseWriter V E) (r : Request)
    (s : World V E) : Except Fault (ResponseWriter V E × World V E) :=
  let w := mod.setSecurityHeaders w
  if !mod.checkAuth r then
    .ok (mod.setAuthFailed w r s)
  else if r.Method = "GET" then
    mod.showEvents ext w r s
  else if r.Method = "DELETE" then
    .ok (w, mod.clearEvents ext w r s)
  else
    .ok (http.Error w "Bad Request" 400, s)

end RestAPI

/-! ## A sample deployment

Concrete collaborators and requests, used to evaluate the handlers. -/

/-- A session with one LAN host, one wireless station, one wireless client and
five events. -/
def sampleSession : Session String Nat :=
  { Env := "env", Gateway := "gateway", Interface := "interface", Modules := "modules",
    Options := "options", Queue := "queue", StartedAt := "started-at",
    Lan := ⟨fun mac => if mac = "aa:bb:cc:dd:ee:ff" then some "host" else none⟩,
    WiFi := ⟨fun mac => if mac = "aa:bb:cc:dd:ee:ff" then some "station" else none,
      fun mac => if mac = "11:22:33:44:55:66" then some "client" else none⟩,
    BLE := ⟨fun _ => none⟩,
    HID := ⟨fun _ => none⟩,
    Events := [3, 1, 2, 5, 4] }

/-- The sample session with its mutex free and no call made yet. -/
def sampleWorld : World String Nat :=
  ⟨sampleSession, false, []⟩

/-- An interpreter that rejects the empty command, a decoder for two bodies, events
ordered by their number, and a streaming subsystem that leaves the writer alone. -/
def sampleExt : Ext String Nat :=
  { lowerTable := fun c => c,
    Decode := fun body =>
      if body = "\x7b\"cmd\":\"wifi.recon on\"\x7d" then some ⟨"wifi.recon on"⟩
      else if body = "\x7b\"cmd\":\"\"\x7d" then some ⟨""⟩
      else none,
    Run := fun cmd I => if cmd = "" then (I, some "empty command") else (I, none),
    Sorted := fun es => es.insertionSort (fun a b => a ≤ b),
    Clear := fun _ => [],
    startStreamingEvents := fun w _ s => (w, s) }

/-- A module configured with the credentials `(admin, s3cret)`, in pull mode. -/
def sampleMod : RestAPI :=
  ⟨"admin", "s3cret", "*", false⟩

/-- A request builder: method, URL, credentials. -/
def sampleRequest (method url : String) (auth : Option (String × String)) : Request :=
  { Method := method, URL := url, RemoteAddr := "10.0.0.7:51234", Authorization := auth,
    Body := none, Query := fun _ => [], Vars := fun _ => "" }

/-- A `GET /api/events` request whose query holds the values `n` for the key `n`. -/
def eventsRequest (n : List String) : Request :=
  { Method := "GET", URL := "/api/events", RemoteAddr := "10.0.0.7:51234",
    Authorization := some ("admin", "s3cret"), Body := none,
    Query := fun k => if k = "n" then n else [], Vars := fun _ => "" }

/-- An authenticated `POST /api/session` with the given body. -/
def postRequest (body : Option String) : Request :=
  { Method := "POST", URL := "/api/session", RemoteAddr := "10.0.0.7:51234",
    Authorization := some ("admin", "s3cret"), Body := body,
    Query := fun _ => [], Vars := fun _ => "" }

/-- An authenticated `GET` of a keyed endpoint whose route variable `mac` is set. -/
def macRequest (url mac : String) : Request :=
  { Method := "GET", URL := url, RemoteAddr := "10.0.0.7:51234",
    Authorization := some ("admin", "s3cret"), Body := none,
    Query := fun _ => [], Vars := fun k => if k = "mac" then mac else "" }

/-- Go: `r.URL.String()` for a request with the given path and raw query: the path,
followed by `?` and the query when there is one. -/
def requestURL (path rawQuery : String) : String :=
  if rawQuery = "" then path else path ++ "?" ++ rawQuery

/-- The sample module in streaming mode. -/
def streamingMod : RestAPI :=
  ⟨"admin", "s3cret", "*", true⟩

/-- Modelled from the spec: `startStreamingEvents` is in another file of the module;
the streaming subsystem "upgrades the transport". This is the response of a
connection taken over for the upgrade: status 101 and the header block of the
upgrade, nothing of what the handler set on its writer. -/
def upgradeResponse : ResponseWriter String Nat :=
  ⟨fun k => if k = "Upgrade" then ["websocket"] else if k = "Connection" then ["Upgrade"] else [],
    some 101, []⟩

/-- Modelled from the spec: the sample collaborators with a streaming subsystem
(`startStreamingEvents`, in another file of the module) that takes the connection
over and answers the upgrade itself. -/
def upgradingExt : Ext String Nat :=
  { sampleExt with startStreamingEvents := fun _ _ s => (upgradeResponse, s) }

/-! ## The response shaper and the path table, as the specification words them -/

/-- The hardening headers (framing denied, no content-type sniffing, XSS filter,
same-origin referrer) and the CORS headers are among the headers of `w`. -/
def hardened {V E : Type} (mod : RestAPI) (w : ResponseWriter V E) : Prop :=
  "DENY" ∈ w.Values "X-Frame-Options" ∧
  "nosniff" ∈ w.Values "X-Content-Type-Options" ∧
  "1; mode=block" ∈ w.Values "X-XSS-Protection" ∧
  "same-origin" ∈ w.Values "Referrer-Policy" ∧
  mod.allowOrigin ∈ w.Values "Access-Control-Allow-Origin" ∧
  "Accept, Content-Type, Content-Length, Accept-Encoding, X-CSRF-Token, Authorization" ∈
    w.Values "Access-Control-Allow-Headers" ∧
  "POST, GET, OPTIONS, PUT, DELETE" ∈ w.Values "Access-Control-Allow-Methods"

instance {V E : Type} (mod : RestAPI) (w : ResponseWriter V E) : Decidable (hardened mod w) := by
  unfold hardened
  infer_instance

/-- A rule of the path table: the path is the pattern, or starts with it. -/
inductive Rule where
  | exact (pattern : String)
  | startsWith (pattern : String)
  deriving DecidableEq, Repr

/-- Whether a rule matches a request path. -/
def Rule.matches : Rule → String → Bool
  | .exact pattern, path => decide (path = pattern)
  | .startsWith pattern, path => strings.HasPrefix path pattern

/-- The fixed, ordered path table of the session routes. -/
def routeTable : List (Rule × Handler) :=
  [(.exact "/api/session", .session),
   (.exact "/api/session/env", .env),
   (.exact "/api/session/gateway", .gateway),
   (.exact "/api/session/interface", .interface),
   (.startsWith "/api/session/modules", .modules),
   (.startsWith "/api/session/lan", .lan),
   (.exact "/api/session/options", .options),
   (.exact "/api/session/packets", .packets),
   (.exact "/api/session/started-at", .startedAt),
   (.startsWith "/api/session/ble", .ble),
   (.startsWith "/api/session/hid", .hid),
   (.startsWith "/api/session/wifi", .wifi)]

/-- The handler of the first rule of a table that matches the path. -/
def firstMatch (table : List (Rule × Handler)) (path : String) : Option Handler :=
  match table with
  | [] => none
  | (rule, h) :: rest => if rule.matches path then some h else firstMatch rest path

/-- The function of the controller a handler name stands for. -/
def Handler.run {V E : Type} (h : Handler) (mod : RestAPI) (ext : Ext V E)
    (w : ResponseWriter V E) (r : Request) (I : Session V E) : ResponseWriter V E :=
  match h with
  | .session => mod.showSession w r I
  | .env => mod.showEnv w r I
  | .gateway => mod.showGateway w r I
  | .interface => mod.showInterface w r I
  | .modules => mod.showModules w r I
  | .lan => mod.showLAN ext w r I
  | .options => mod.showOptions w r I
  | .packets => mod.showPackets w r I
  | .startedAt => mod.showStartedAt w r I
  | .ble => mod.showBLE ext w r I
  | .hid => mod.showHID ext w r I
  | .wifi => mod.showWiFi ext w r I

/-- Whether every handler call of a trace is made with the session lock held, the
lock being `held` or not at the start: `lock` takes it, `unlock` releases it. -/
def handlersUnderLock : Bool → List Effect → Bool
  | _, [] => true
  | _, .lock :: rest => handlersUnderLock true rest
  | _, .unlock :: rest => handlersUnderLock false rest
  | held, .handler _ :: rest => held && handlersUnderLock held rest
  | held, .warning _ _ :: rest => handlersUnderLock held rest
  | held, .run _ :: rest => handlersUnderLock held rest
  | held, .clear :: rest => handlersUnderLock held rest

/-- Dispatch by the path table: the first matching rule wins, no match is 404. -/
def tableDispatch {V E : Type} (mod : RestAPI) (ext : Ext V E) (w : ResponseWriter V E)
    (r : Request) (I : Session V E) : ResponseWriter V E :=
  match firstMatch routeTable r.URL with
  | some h => h.run mod ext w r I
  | none => http.Error w "Not Found" 404

end ApiRest

namespace ApiRest

/-! ## Bytes of strings and constant-time comparison -/

theorem char_toNat_lt (c : Char) : c.toNat < 0x110000 := by
  have hv := c.valid
  unfold UInt32.isValidChar Nat.isValidChar at hv
  show c.val.toNat < _
  omega

theorem char_eq_of_toNat_eq {c d : Char} (h : c.toNat = d.toNat) : c = d :=
  Char.ext (UInt32.ext h)

theorem utf8Bytes_lt (c : Char) : ∀ b ∈ utf8Bytes c, b < 256 := by
  have hc := char_toNat_lt c
  intro b hb
  unfold utf8Bytes at hb
  simp only [] at hb
  split_ifs at hb <;> simp at hb <;> omega

theorem utf8Bytes_append_inj (c d : Char) (X Y : List Nat)
    (h : utf8Bytes c ++ X = utf8Bytes d ++ Y) : c = d ∧ X = Y := by
  have hc := char_toNat_lt c
  have hd := char_toNat_lt d
  unfold utf8Bytes at h
  simp only [] at h
  split_ifs at h <;> simp at h <;>
    (refine ⟨char_eq_of_toNat_eq ?_, ?_⟩ <;> first | omega | simp [h])

theorem bytes_lt (s : String) : ∀ b ∈ bytes s, b < 256 := by
  intro b hb
  unfold bytes at hb
  rw [List.mem_flatMap] at hb
  obtain ⟨c, _, hc⟩ := hb
  exact utf8Bytes_lt c b hc

theorem flatMap_utf8Bytes_inj :
    ∀ xs ys : List Char, xs.flatMap utf8Bytes = ys.flatMap utf8Bytes → xs = ys := by
  have hne : ∀ (c : Char) (cs : List Char), (c :: cs).flatMap utf8Bytes ≠ [] := by
    intro c cs h
    rw [List.flatMap_cons] at h
    have h1 := (List.append_eq_nil.mp h).1
    unfold utf8Bytes at h1
    simp only [] at h1
    split_ifs at h1
  intro xs
  induction xs with
  | nil =>
    intro ys h
    cases ys with
    | nil => rfl
    | cons d ds => exact absurd h.symm (hne d ds)
  | cons c cs ih =>
    intro ys h
    cases ys with
    | nil => exact absurd h (hne c cs)
    | cons d ds =>
      rw [List.flatMap_cons, List.flatMap_cons] at h
      obtain ⟨hcd, hrest⟩ := utf8Bytes_append_inj c d _ _ h
      rw [hcd, ih ds hrest]

theorem bytes_inj {s t : String} (h : bytes s = bytes t) : s = t :=
  String.ext (flatMap_utf8Bytes_inj s.toList t.toList h)

theorem or_eq_zero {a b : Nat} (h : a ||| b = 0) : a = 0 ∧ b = 0 := by
  have key : ∀ i, a.testBit i = false ∧ b.testBit i = false := by
    intro i
    have := congrArg (fun n => n.testBit i) h
    simpa [Nat.testBit_or] using this
  exact ⟨Nat.eq_of_testBit_eq (fun i => by simp [(key i).1]),
    Nat.eq_of_testBit_eq (fun i => by simp [(key i).2])⟩

theorem accumulate_eq_zero_iff :
    ∀ (x y : List Nat) (v : Nat), x.length = y.length →
      (∀ b ∈ x, b < 256) → (∀ b ∈ y, b < 256) → v < 256 →
      ((x.zip y).foldl (fun v p => (v ||| (p.1 ^^^ p.2)) % 256) v = 0 ↔ v = 0 ∧ x = y) := by
  intro x
  induction x with
  | nil =>
    intro y v hlen _ _ _
    cases y with
    | nil => simp
    | cons b bs => simp at hlen
  | cons a as ih =>
    intro y v hlen hx hy hv
    cases y with
    | nil => simp at hlen
    | cons b bs =>
      have ha : a < 256 := hx a (by simp)
      have hb : b < 256 := hy b (by simp)
      have hxor : a ^^^ b < 2 ^ 8 := Nat.xor_lt_two_pow (by omega) (by omega)
      have hor : v ||| (a ^^^ b) < 2 ^ 8 := Nat.or_lt_two_pow (by omega) hxor
      have hmod : (v ||| (a ^^^ b)) % 256 = v ||| (a ^^^ b) := Nat.mod_eq_of_lt (by omega)
      simp only [List.zip_cons_cons, List.foldl_cons]
      rw [ih bs _ (by simpa using hlen) (fun c hc => hx c (by simp [hc]))
        (fun c hc => hy c (by simp [hc])) (Nat.mod_lt _ (by omega)), hmod]
      constructor
      · rintro ⟨h0, hrest⟩
        obtain ⟨hv0, hab⟩ := or_eq_zero h0
        exact ⟨hv0, by rw [Nat.xor_eq_zero.mp hab, hrest]⟩
      · rintro ⟨hv0, hrest⟩
        simp only [List.cons.injEq] at hrest
        obtain ⟨hab, hrest⟩ := hrest
        subst hv0 hab
        exact ⟨by simp, hrest⟩

theorem ConstantTimeByteEq_zero_right {v : Nat} (hv : v < 256) :
    subtle.ConstantTimeByteEq v 0 = 1 ↔ v = 0 := by
  unfold subtle.ConstantTimeByteEq
  rw [Nat.xor_zero, Nat.shiftRight_eq_div_pow]
  omega

theorem accumulate_lt (l : List (Nat × Nat)) (v : Nat) (hv : v < 256) :
    l.foldl (fun v p => (v ||| (p.1 ^^^ p.2)) % 256) v < 256 := by
  induction l generalizing v with
  | nil => simpa using hv
  | cons p ps ih => exact ih _ (Nat.mod_lt _ (by omega))

theorem ConstantTimeCompare_eq_one_iff (x y : List Nat)
    (hx : ∀ b ∈ x, b < 256) (hy : ∀ b ∈ y, b < 256) :
    subtle.ConstantTimeCompare x y = 1 ↔ x = y := by
  unfold subtle.ConstantTimeCompare
  by_cases hlen : x.length = y.length
  · rw [if_neg (by simpa using hlen), ConstantTimeByteEq_zero_right (accumulate_lt _ 0 (by omega)),
      accumulate_eq_zero_iff x y 0 hlen hx hy (by omega)]
    simp
  · rw [if_pos hlen]
    constructor
    · intro h; exact absurd h (by decide)
    · intro h; exact absurd (congrArg List.length h) hlen

theorem ConstantTimeCompare_bytes (s t : String) :
    subtle.ConstantTimeCompare (bytes s) (bytes t) = 1 ↔ s = t := by
  rw [ConstantTimeCompare_eq_one_iff _ _ (bytes_lt s) (bytes_lt t)]
  exact ⟨bytes_inj, fun h => by rw [h]⟩

/-! ## Credential gate -/

theorem BasicAuth_eq (r : Request) :
    r.BasicAuth.1 = (r.Authorization.getD ("", "")).1 ∧
      r.BasicAuth.2.1 = (r.Authorization.getD ("", "")).2 := by
  unfold Request.BasicAuth
  cases r.Authorization <;> simp

/-- C2: `checkAuth` returns true exactly when authentication is unconfigured (the
configured username or the configured password is empty) or the basic-auth user
and password of the request both equal the configured ones, absent credentials
counting as a pair of empty strings; in particular it returns true whatever the
credentials of the request when either configured field is empty. -/
theorem checkAuth_iff (mod : RestAPI) (r : Request) :
    (mod.checkAuth r = true ↔
      (mod.username = "" ∨ mod.password = "" ∨
        ((r.Authorization.getD ("", "")).1 = mod.username ∧
          (r.Authorization.getD ("", "")).2 = mod.password))) ∧
    (mod.username = "" ∨ mod.password = "" → mod.checkAuth r = true) := by
  obtain ⟨hu, hp⟩ := BasicAuth_eq r
  have hiff : mod.checkAuth r = true ↔
      (mod.username = "" ∨ mod.password = "" ∨
        ((r.Authorization.getD ("", "")).1 = mod.username ∧
          (r.Authorization.getD ("", "")).2 = mod.password)) := by
    unfold RestAPI.checkAuth
    simp only [ne_eq, ConstantTimeCompare_bytes, hu, hp]
    by_cases h1 : mod.username = "" <;> by_cases h2 : mod.password = "" <;>
      by_cases h3 : (r.Authorization.getD ("", "")).1 = mod.username <;>
      by_cases h4 : (r.Authorization.getD ("", "")).2 = mod.password <;>
      simp [h1, h2, h3, h4]
  refine ⟨hiff, ?_⟩
  rintro (h | h)
  · exact hiff.mpr (Or.inl h)
  · exact hiff.mpr (Or.inr (Or.inl h))

theorem setSecurityHeaders_status {V E : Type} (mod : RestAPI) (w : ResponseWriter V E) :
    (mod.setSecurityHeaders w).status = w.status := rfl

theorem setSecurityHeaders_body {V E : Type} (mod : RestAPI) (w : ResponseWriter V E) :
    (mod.setSecurityHeaders w).body = w.body := rfl

theorem checkAuth_eq_false {mod : RestAPI} {r : Request}
    (hu : mod.username ≠ "") (hp : mod.password ≠ "")
    (hbad : r.Authorization ≠ some (mod.username, mod.password)) :
    mod.checkAuth r = false := by
  obtain ⟨h1, h2⟩ := BasicAuth_eq r
  unfold RestAPI.checkAuth
  simp only [ne_eq, ConstantTimeCompare_bytes, h1, h2]
  rw [if_pos ⟨hu, hp⟩]
  cases ha : r.Authorization with
  | none =>
    have hne : ¬ ("" = mod.username) := fun h => hu h.symm
    simp [hne]
  | some c =>
    obtain ⟨u, p⟩ := c
    rw [ha] at hbad
    by_cases hu1 : u = mod.username
    · by_cases hp1 : p = mod.password
      · exact absurd (by rw [hu1, hp1]) hbad
      · simp [hu1, hp1]
    · simp [hu1]

/-- C1: when a username and a password are configured and the basic-auth
credentials of the request are absent or differ from them, `sessionRoute` and
`eventsRoute` both return the same response, with status 401 and the
`WWW-Authenticate` challenge, and no handler side effect occurs: the session data
and the state of the session lock are unchanged and the only call added to the
trace is the warning log, so the interpreter is not run, the events are not
cleared and the lock is not taken. -/
theorem auth_failure_is_401_without_side_effect {V E : Type} (mod : RestAPI) (ext : Ext V E)
    (w : ResponseWriter V E) (r : Request) (s : World V E)
    (hw : w.status = none)
    (hu : mod.username ≠ "") (hp : mod.password ≠ "")
    (hbad : r.Authorization ≠ some (mod.username, mod.password)) :
    ∃ w1 s1,
      mod.sessionRoute ext w r s = .ok (w1, s1) ∧
      mod.eventsRoute ext w r s = .ok (w1, s1) ∧
      w1.status = some 401 ∧
      w1.Values "WWW-Authenticate" = ["Basic realm=\"auth\""] ∧
      s1.I = s.I ∧ s1.locked = s.locked ∧
      s1.trace = s.trace ++
        [.warning "Unauthorized authentication attempt from %s to %s" [r.RemoteAddr, r.URL]] ∧
      (∀ cmd, Effect.run cmd ∉ s1.trace.drop s.trace.length) ∧
      Effect.clear ∉ s1.trace.drop s.trace.length ∧
      Effect.lock ∉ s1.trace.drop s.trace.length := by
  have hc := checkAuth_eq_false hu hp hbad
  refine ⟨(mod.setAuthFailed (mod.setSecurityHeaders w) r s).1,
    (mod.setAuthFailed (mod.setSecurityHeaders w) r s).2, ?_, ?_, ?_, ?_, rfl, rfl, rfl, ?_, ?_, ?_⟩
  · simp [RestAPI.sessionRoute, hc]
  · simp [RestAPI.eventsRoute, hc]
  · simp [RestAPI.setAuthFailed, ResponseWriter.Set, ResponseWriter.WriteHeader,
      ResponseWriter.Write, setSecurityHeaders_status, hw]
  · simp [RestAPI.setAuthFailed, ResponseWriter.Set, ResponseWriter.WriteHeader,
      ResponseWriter.Write, ResponseWriter.Values, setSecurityHeaders_status, hw]
  · intro cmd; simp [RestAPI.setAuthFailed]
  · simp [RestAPI.setAuthFailed]
  · simp [RestAPI.setAuthFailed]

/-- Witness for C1: `GET /api/session/wifi` without credentials against the module
configured with `(admin, s3cret)`. -/
theorem auth_failure_witness :
    ∃ w1 s1,
      sampleMod.sessionRoute sampleExt (ResponseWriter.fresh String Nat)
        (sampleRequest "GET" "/api/session/wifi" none) sampleWorld = .ok (w1, s1) ∧
      sampleMod.eventsRoute sampleExt (ResponseWriter.fresh String Nat)
        (sampleRequest "GET" "/api/session/wifi" none) sampleWorld = .ok (w1, s1) ∧
      w1.status = some 401 ∧
      w1.Values "WWW-Authenticate" = ["Basic realm=\"auth\""] ∧
      s1.I = sampleWorld.I ∧ s1.locked = sampleWorld.locked ∧
      s1.trace = sampleWorld.trace ++
        [.warning "Unauthorized authentication attempt from %s to %s"
          ["10.0.0.7:51234", "/api/session/wifi"]] ∧
      (∀ cmd, Effect.run cmd ∉ s1.trace.drop sampleWorld.trace.length) ∧
      Effect.clear ∉ s1.trace.drop sampleWorld.trace.length ∧
      Effect.lock ∉ s1.trace.drop sampleWorld.trace.length :=
  auth_failure_is_401_without_side_effect sampleMod sampleExt (ResponseWriter.fresh String Nat)
    (sampleRequest "GET" "/api/session/wifi" none) sampleWorld rfl (by decide) (by decide)
    (by simp [sampleRequest])

/-! ## Event window -/

theorem wrap64_of_range {x : Int} (h0 : 0 ≤ x) (h1 : x < 2 ^ 63) : wrap64 x = x := by
  unfold wrap64
  omega

theorem sliceFrom_of_le {α : Type} (xs : List α) (k : Nat) (hk : k ≤ xs.length) :
    sliceFrom xs (((xs.length - k : Nat) : Int)) = .ok (xs.drop (xs.length - k)) := by
  unfold sliceFrom
  rw [if_neg (by omega)]
  simp

theorem showEvents_full {V E : Type} (mod : RestAPI) (ext : Ext V E) (w : ResponseWriter V E)
    (s : World V E) :
    (match sliceFrom (ext.Sorted s.I.Events)
        (wrap64 (((ext.Sorted s.I.Events).length : Int) - ((ext.Sorted s.I.Events).length : Int)))
      with
      | .error f => .error f
      | .ok window => .ok (mod.toJSON w (.events window), s)) =
      (.ok (mod.toJSON w (.events (ext.Sorted s.I.Events)), s) :
        Except Fault (ResponseWriter V E × World V E)) := by
  have h := sliceFrom_of_le (ext.Sorted s.I.Events) (ext.Sorted s.I.Events).length (le_refl _)
  simp only [Nat.sub_self, List.drop_zero, Nat.cast_zero] at h
  rw [sub_self, wrap64_of_range (le_refl _) (by norm_num), h]

/-- C3: in pull mode, with `events` the sorted history (of a length an `int`
holds): when the query has no `n`, or its first `n` is not accepted by
`strconv.Atoi`, or it is an integer greater than the number of events, `showEvents`
returns the whole sorted history; when it is an integer `k` with
`0 <= k <= len(events)`, `showEvents` returns the last `k` events in their
original order: a suffix of the history of length `k`. -/
theorem showEvents_window {V E : Type} (mod : RestAPI) (ext : Ext V E) (w : ResponseWriter V E)
    (r : Request) (s : World V E)
    (hpull : mod.useWebsocket = false)
    (hlen : (ext.Sorted s.I.Events).length < 2 ^ 63) :
    (r.Query "n" = [] →
      mod.showEvents ext w r s = .ok (mod.toJSON w (.events (ext.Sorted s.I.Events)), s)) ∧
    (∀ v rest, r.Query "n" = v :: rest → strconv.Atoi v = none →
      mod.showEvents ext w r s = .ok (mod.toJSON w (.events (ext.Sorted s.I.Events)), s)) ∧
    (∀ v rest k, r.Query "n" = v :: rest → strconv.Atoi v = some k →
      ((ext.Sorted s.I.Events).length : Int) < k →
      mod.showEvents ext w r s = .ok (mod.toJSON w (.events (ext.Sorted s.I.Events)), s)) ∧
    (∀ v rest k, r.Query "n" = v :: rest → strconv.Atoi v = some k →
      0 ≤ k → k ≤ ((ext.Sorted s.I.Events).length : Int) →
      mod.showEvents ext w r s =
        .ok (mod.toJSON w
          (.events ((ext.Sorted s.I.Events).drop ((ext.Sorted s.I.Events).length - k.toNat))), s) ∧
      (((ext.Sorted s.I.Events).drop ((ext.Sorted s.I.Events).length - k.toNat)).length : Int) = k ∧
      (ext.Sorted s.I.Events).drop ((ext.Sorted s.I.Events).length - k.toNat)
        <:+ ext.Sorted s.I.Events) := by
  refine ⟨?_, ?_, ?_, ?_⟩
  · intro hq
    simp only [RestAPI.showEvents, hpull, hq, Bool.false_eq_true, if_false]
    exact showEvents_full mod ext w s
  · intro v rest hq hv
    simp only [RestAPI.showEvents, hpull, hq, hv, Bool.false_eq_true, if_false]
    exact showEvents_full mod ext w s
  · intro v rest k hq hv hk
    simp only [RestAPI.showEvents, hpull, hq, hv, Bool.false_eq_true, if_false, gt_iff_lt, hk,
      if_true]
    exact showEvents_full mod ext w s
  · intro v rest k hq hv h0 hk
    have hnot : ¬ (((ext.Sorted s.I.Events).length : Int) < k) := by omega
    have hcast : ((ext.Sorted s.I.Events).length : Int) - k =
        (((ext.Sorted s.I.Events).length - k.toNat : Nat) : Int) := by omega
    refine ⟨?_, ?_, List.drop_suffix _ _⟩
    · simp only [RestAPI.showEvents, hpull, hq, hv, Bool.false_eq_true, if_false, gt_iff_lt,
        hnot]
      rw [hcast, wrap64_of_range (by omega) (by omega),
        sliceFrom_of_le _ k.toNat (by omega)]
    · rw [List.length_drop]
      omega

/-- Witness for C3: on the five sample events, `GET /api/events` without `n`, with
`n=abc` and with `n=9` returns the whole sorted history, and `n=2` returns its last
two events. -/
theorem showEvents_window_witness :
    strconv.Atoi "abc" = none ∧ strconv.Atoi "9" = some 9 ∧ strconv.Atoi "2" = some 2 ∧
    sampleMod.showEvents sampleExt (ResponseWriter.fresh String Nat) (eventsRequest [])
        sampleWorld =
      .ok (sampleMod.toJSON (ResponseWriter.fresh String Nat) (.events [1, 2, 3, 4, 5]),
        sampleWorld) ∧
    sampleMod.showEvents sampleExt (ResponseWriter.fresh String Nat) (eventsRequest ["abc"])
        sampleWorld =
      .ok (sampleMod.toJSON (ResponseWriter.fresh String Nat) (.events [1, 2, 3, 4, 5]),
        sampleWorld) ∧
    sampleMod.showEvents sampleExt (ResponseWriter.fresh String Nat) (eventsRequest ["9"])
        sampleWorld =
      .ok (sampleMod.toJSON (ResponseWriter.fresh String Nat) (.events [1, 2, 3, 4, 5]),
        sampleWorld) ∧
    sampleMod.showEvents sampleExt (ResponseWriter.fresh String Nat) (eventsRequest ["2"])
        sampleWorld =
      .ok (sampleMod.toJSON (ResponseWriter.fresh String Nat) (.events [4, 5]), sampleWorld) ∧
    (([4, 5] : List Nat).length : Int) = 2 ∧
    [4, 5] <:+ [1, 2, 3, 4, 5] :=
  ⟨by decide, by decide, by decide,
    (showEvents_window sampleMod sampleExt (ResponseWriter.fresh String Nat) (eventsRequest [])
      sampleWorld rfl (by decide)).1 rfl,
    (showEvents_window sampleMod sampleExt (ResponseWriter.fresh String Nat)
      (eventsRequest ["abc"]) sampleWorld rfl (by decide)).2.1 "abc" [] rfl (by decide),
    (showEvents_window sampleMod sampleExt (ResponseWriter.fresh String Nat)
      (eventsRequest ["9"]) sampleWorld rfl (by decide)).2.2.1 "9" [] 9 rfl (by decide)
        (by decide),
    (showEvents_window sampleMod sampleExt (ResponseWriter.fresh String Nat) (eventsRequest ["2"])
      sampleWorld rfl (by decide)).2.2.2 "2" [] 2 rfl (by decide) (by decide) (by decide)⟩

theorem Atoi_range {v : String} {k : Int} (h : strconv.Atoi v = some k) :
    -(2 ^ 63) ≤ k ∧ k < 2 ^ 63 := by
  unfold strconv.Atoi at h
  split at h
  · simp at h
  · simp only [] at h
    split_ifs at h <;> simp only [Option.some.injEq, reduceCtorEq] at h <;> omega

/-- C4 (what the code does): in pull mode, when the first `n` of the query is a
negative integer accepted by `strconv.Atoi`, the slice expression
`events[nevents-n:]` is out of range and `showEvents` panics: it returns no
response, no clamped window and no empty array. -/
theorem showEvents_negative_panics {V E : Type} (mod : RestAPI) (ext : Ext V E)
    (w : ResponseWriter V E) (r : Request) (s : World V E) (v : String) (rest : List String)
    (k : Int)
    (hpull : mod.useWebsocket = false)
    (hlen : (ext.Sorted s.I.Events).length < 2 ^ 63)
    (hq : r.Query "n" = v :: rest) (hv : strconv.Atoi v = some k) (hk : k < 0) :
    mod.showEvents ext w r s = .error (.panic "slice bounds out of range") := by
  obtain ⟨hlo, _⟩ := Atoi_range hv
  have hnot : ¬ (((ext.Sorted s.I.Events).length : Int) < k) := by omega
  simp only [RestAPI.showEvents, hpull, hq, hv, Bool.false_eq_true, if_false, gt_iff_lt, hnot]
  have hbad : wrap64 (((ext.Sorted s.I.Events).length : Int) - k) < 0 ∨
      ((ext.Sorted s.I.Events).length : Int) <
        wrap64 (((ext.Sorted s.I.Events).length : Int) - k) := by
    unfold wrap64
    omega
  unfold sliceFrom
  rw [if_pos hbad]

/-- C4 at the failing input: `GET /api/events?n=-1` on the sample session panics. -/
theorem showEvents_minus_one_panics :
    strconv.Atoi "-1" = some (-1) ∧
    sampleMod.showEvents sampleExt (ResponseWriter.fresh String Nat) (eventsRequest ["-1"])
        sampleWorld = .error (.panic "slice bounds out of range") :=
  ⟨by decide,
    showEvents_negative_panics sampleMod sampleExt (ResponseWriter.fresh String Nat)
      (eventsRequest ["-1"]) sampleWorld "-1" [] (-1) rfl (by decide) rfl (by decide) (by decide)⟩

/-! ## Header keys -/

theorem canon_content_type :
    textproto.CanonicalMIMEHeaderKey "Content-Type" = "Content-Type" := by decide

theorem canon_frame_options :
    textproto.CanonicalMIMEHeaderKey "X-Frame-Options" = "X-Frame-Options" := by decide

theorem canon_content_type_options :
    textproto.CanonicalMIMEHeaderKey "X-Content-Type-Options" = "X-Content-Type-Options" := by
  decide

theorem canon_xss_protection :
    textproto.CanonicalMIMEHeaderKey "X-XSS-Protection" = "X-Xss-Protection" := by decide

theorem canon_referrer_policy :
    textproto.CanonicalMIMEHeaderKey "Referrer-Policy" = "Referrer-Policy" := by decide

theorem canon_allow_origin :
    textproto.CanonicalMIMEHeaderKey "Access-Control-Allow-Origin" =
      "Access-Control-Allow-Origin" := by decide

theorem canon_allow_headers :
    textproto.CanonicalMIMEHeaderKey "Access-Control-Allow-Headers" =
      "Access-Control-Allow-Headers" := by decide

theorem canon_allow_methods :
    textproto.CanonicalMIMEHeaderKey "Access-Control-Allow-Methods" =
      "Access-Control-Allow-Methods" := by decide

theorem canon_www_authenticate :
    textproto.CanonicalMIMEHeaderKey "WWW-Authenticate" = "Www-Authenticate" := by decide

/-! ## Command submission -/

theorem Error_status {V E : Type} (w : ResponseWriter V E) (msg : String) (code : Nat)
    (hw : w.status = none) : (http.Error w msg code).status = some code := by
  simp [http.Error, ResponseWriter.Set, ResponseWriter.WriteHeader, ResponseWriter.Write, hw]

theorem Error_body {V E : Type} (w : ResponseWriter V E) (msg : String) (code : Nat) :
    (http.Error w msg code).body = w.body ++ [.line msg] := by
  unfold http.Error ResponseWriter.Write ResponseWriter.WriteHeader ResponseWriter.Set
  cases w.status <;> rfl

theorem toJSON_status {V E : Type} (mod : RestAPI) (w : ResponseWriter V E) (o : Obj V E)
    (hw : w.status = none) : (mod.toJSON w o).status = some 200 := by
  simp [RestAPI.toJSON, ResponseWriter.Set, ResponseWriter.WriteHeader, ResponseWriter.Write, hw]

theorem toJSON_body {V E : Type} (mod : RestAPI) (w : ResponseWriter V E) (o : Obj V E) :
    (mod.toJSON w o).body = w.body ++ [.json o] := by
  unfold RestAPI.toJSON ResponseWriter.Write ResponseWriter.WriteHeader ResponseWriter.Set
  cases w.status <;> rfl

/-- C5 (counterexample): the accepted command `wifi.recon on` is answered with
status 200 and the JSON encoding of an `APIResponse` whose members are `success`
(true) and `msg` (the empty string); the object has no member named `message`, so
the body is not the object with the members `success` and `message`. -/
theorem runSessionCommand_message_member_counterexample :
    sampleExt.Decode "\x7b\"cmd\":\"wifi.recon on\"\x7d" = some ⟨"wifi.recon on"⟩ ∧
    (sampleExt.Run "wifi.recon on" sampleWorld.I).2 = none ∧
    (∃ o : APIResponse,
      (sampleMod.runSessionCommand sampleExt (ResponseWriter.fresh String Nat)
        (postRequest (some "\x7b\"cmd\":\"wifi.recon on\"\x7d")) sampleWorld).1.body =
          [.json (.apiResponse o)] ∧
      o.jsonFields = [("success", .bool true), ("msg", .str "")] ∧
      (∀ v, ("message", v) ∉ o.jsonFields)) ∧
    ¬ (∃ o : APIResponse,
      (sampleMod.runSessionCommand sampleExt (ResponseWriter.fresh String Nat)
        (postRequest (some "\x7b\"cmd\":\"wifi.recon on\"\x7d")) sampleWorld).1.body =
          [.json (.apiResponse o)] ∧
      o.jsonFields = [("success", .bool true), ("message", .str "")]) := by
  refine ⟨by decide, by decide, ⟨⟨true, ""⟩, rfl, rfl, ?_⟩, ?_⟩
  · intro v
    simp [APIResponse.jsonFields]
  · rintro ⟨o, _, ho⟩
    simp [APIResponse.jsonFields] at ho

/-- C5 (amended): for a request whose body decodes to a command request and whose
command the interpreter accepts, `runSessionCommand` responds with status 200, the
content type `application/json` and, as its body, the JSON encoding of
`APIResponse{Success: true}`, which is the object with the member `success` set to
true and the member `msg` set to the empty string; an authenticated `POST` to
`sessionRoute` returns this response. -/
theorem runSessionCommand_success {V E : Type} (mod : RestAPI) (ext : Ext V E)
    (w : ResponseWriter V E) (r : Request) (s : World V E) (body : String)
    (cmd : CommandRequest)
    (hw : w.status = none)
    (hb : r.Body = some body) (hd : ext.Decode body = some cmd)
    (hr : (ext.Run cmd.Command s.I).2 = none) :
    (mod.runSessionCommand ext w r s).1.status = some 200 ∧
    (mod.runSessionCommand ext w r s).1.body =
      w.body ++ [.json (.apiResponse { Success := true, Message := "" })] ∧
    (mod.runSessionCommand ext w r s).1.Values "Content-Type" = ["application/json"] ∧
    APIResponse.jsonFields { Success := true, Message := "" } =
      [("success", .bool true), ("msg", .str "")] ∧
    (mod.checkAuth r = true → r.Method = "POST" →
      mod.sessionRoute ext w r s =
        .ok (mod.runSessionCommand ext (mod.setSecurityHeaders w) r s) ∧
      (mod.runSessionCommand ext (mod.setSecurityHeaders w) r s).1.status = some 200 ∧
      (mod.runSessionCommand ext (mod.setSecurityHeaders w) r s).1.body =
        w.body ++ [.json (.apiResponse { Success := true, Message := "" })]) := by
  have hrun : ∀ w0 : ResponseWriter V E, mod.runSessionCommand ext w0 r s =
      (mod.toJSON w0 (.apiResponse { Success := true, Message := "" }),
        { s with I := (ext.Run cmd.Command s.I).1, trace := s.trace ++ [.run cmd.Command] }) := by
    intro w0
    simp only [RestAPI.runSessionCommand, hb, hd, hr]
  refine ⟨?_, ?_, ?_, rfl, ?_⟩
  · rw [hrun]; exact toJSON_status mod w _ hw
  · rw [hrun]; exact toJSON_body mod w _
  · rw [hrun]
    simp [RestAPI.toJSON, ResponseWriter.Set, ResponseWriter.WriteHeader, ResponseWriter.Write,
      ResponseWriter.Values, hw]
  · intro hauth hm
    refine ⟨?_, ?_, ?_⟩
    · simp [RestAPI.sessionRoute, hauth, hm]
    · rw [hrun]; exact toJSON_status mod _ _ (by rw [setSecurityHeaders_status]; exact hw)
    · rw [hrun, toJSON_body, setSecurityHeaders_body]

/-- Witness for C5 (amended): the accepted command `wifi.recon on`. -/
theorem runSessionCommand_success_witness :
    (sampleMod.runSessionCommand sampleExt (ResponseWriter.fresh String Nat)
      (postRequest (some "\x7b\"cmd\":\"wifi.recon on\"\x7d")) sampleWorld).1.status = some 200 ∧
    (sampleMod.runSessionCommand sampleExt (ResponseWriter.fresh String Nat)
      (postRequest (some "\x7b\"cmd\":\"wifi.recon on\"\x7d")) sampleWorld).1.body =
        [.json (.apiResponse { Success := true, Message := "" })] ∧
    sampleMod.checkAuth (postRequest (some "\x7b\"cmd\":\"wifi.recon on\"\x7d")) = true ∧
    sampleMod.sessionRoute sampleExt (ResponseWriter.fresh String Nat)
        (postRequest (some "\x7b\"cmd\":\"wifi.recon on\"\x7d")) sampleWorld =
      .ok (sampleMod.runSessionCommand sampleExt
        (sampleMod.setSecurityHeaders (ResponseWriter.fresh String Nat))
        (postRequest (some "\x7b\"cmd\":\"wifi.recon on\"\x7d")) sampleWorld) :=
  have h := runSessionCommand_success sampleMod sampleExt (ResponseWriter.fresh String Nat)
    (postRequest (some "\x7b\"cmd\":\"wifi.recon on\"\x7d")) sampleWorld
    "\x7b\"cmd\":\"wifi.recon on\"\x7d" ⟨"wifi.recon on"⟩ rfl rfl (by decide) (by decide)
  ⟨h.1, h.2.1, by decide, (h.2.2.2.2 (by decide) rfl).1⟩

/-- C6: `runSessionCommand` answers 400 in exactly three cases. When the body is
nil or does not decode to a command request, the body of the response is the text
`Bad Request` and the interpreter is not invoked (session and trace are
unchanged); when the body decodes and the interpreter returns an error, the body
is the text of that error, written as plain text by `http.Error`. In every other
case the status is not 400. -/
theorem runSessionCommand_bad_request {V E : Type} (mod : RestAPI) (ext : Ext V E)
    (w : ResponseWriter V E) (r : Request) (s : World V E)
    (hw : w.status = none) :
    (r.Body = none →
      mod.runSessionCommand ext w r s = (http.Error w "Bad Request" 400, s)) ∧
    (∀ body, r.Body = some body → ext.Decode body = none →
      mod.runSessionCommand ext w r s = (http.Error w "Bad Request" 400, s)) ∧
    (∀ body cmd err, r.Body = some body → ext.Decode body = some cmd →
      (ext.Run cmd.Command s.I).2 = some err →
      mod.runSessionCommand ext w r s =
        (http.Error w err 400,
          { s with I := (ext.Run cmd.Command s.I).1, trace := s.trace ++ [.run cmd.Command] })) ∧
    (∀ msg, (http.Error w msg 400).status = some 400 ∧
      (http.Error w msg 400).body = w.body ++ [.line msg] ∧
      (http.Error w msg 400).Values "Content-Type" = ["text/plain; charset=utf-8"]) ∧
    ((mod.runSessionCommand ext w r s).1.status = some 400 ↔
      (r.Body = none ∨ (∃ body, r.Body = some body ∧ ext.Decode body = none) ∨
        ∃ body cmd err, r.Body = some body ∧ ext.Decode body = some cmd ∧
          (ext.Run cmd.Command s.I).2 = some err)) := by
  refine ⟨?_, ?_, ?_, ?_, ?_⟩
  · intro hb
    simp only [RestAPI.runSessionCommand, hb]
  · intro body hb hd
    simp only [RestAPI.runSessionCommand, hb, hd]
  · intro body cmd err hb hd hr
    simp only [RestAPI.runSessionCommand, hb, hd, hr]
  · intro msg
    refine ⟨Error_status w msg 400 hw, Error_body w msg 400, ?_⟩
    simp [http.Error, ResponseWriter.Set, ResponseWriter.WriteHeader, ResponseWriter.Write,
      ResponseWriter.Values, hw, canon_content_type, canon_content_type_options]
  · cases hb : r.Body with
    | none => simp [RestAPI.runSessionCommand, hb, Error_status, hw]
    | some body =>
      cases hd : ext.Decode body with
      | none => simp [RestAPI.runSessionCommand, hb, hd, Error_status, hw]
      | some cmd =>
        cases hr : (ext.Run cmd.Command s.I).2 with
        | some err => simp [RestAPI.runSessionCommand, hb, hd, hr, Error_status, hw]
        | none => simp [RestAPI.runSessionCommand, hb, hd, hr, toJSON_status, hw]

/-- Witness for C6: a `POST` without a body, and the rejected empty command. -/
theorem runSessionCommand_bad_request_witness :
    sampleMod.runSessionCommand sampleExt (ResponseWriter.fresh String Nat) (postRequest none)
        sampleWorld =
      (http.Error (ResponseWriter.fresh String Nat) "Bad Request" 400, sampleWorld) ∧
    (sampleMod.runSessionCommand sampleExt (ResponseWriter.fresh String Nat)
        (postRequest (some "\x7b\"cmd\":\"\"\x7d")) sampleWorld).1 =
      http.Error (ResponseWriter.fresh String Nat) "empty command" 400 ∧
    (http.Error (ResponseWriter.fresh String Nat) "empty command" 400).body =
      [.line "empty command"] :=
  ⟨(runSessionCommand_bad_request sampleMod sampleExt (ResponseWriter.fresh String Nat)
      (postRequest none) sampleWorld rfl).1 rfl,
    congrArg Prod.fst
      ((runSessionCommand_bad_request sampleMod sampleExt (ResponseWriter.fresh String Nat)
        (postRequest (some "\x7b\"cmd\":\"\"\x7d")) sampleWorld rfl).2.2.1
          "\x7b\"cmd\":\"\"\x7d" ⟨""⟩ "empty command" rfl (by decide) (by decide)),
    ((runSessionCommand_bad_request sampleMod sampleExt (ResponseWriter.fresh String Nat)
      (postRequest none) sampleWorld rfl).2.2.2.1 "empty command").2.1⟩

/-! ## Keyed lookups -/

theorem toNat_ofNat_of_lt (n : Nat) (h : n < 0xD800) : (Char.ofNat n).toNat = n := by
  have hv : n.isValidChar := Or.inl h
  unfold Char.ofNat
  rw [dif_pos hv]
  show (Char.ofNatAux n hv).val.toNat = n
  unfold Char.ofNatAux
  simp [UInt32.toNat]

theorem unicode_ToLower_idem (tbl : Char → Char)
    (htbl : ∀ c : Char, 0x7F < c.toNat → unicode.ToLower tbl (tbl c) = tbl c) (c : Char) :
    unicode.ToLower tbl (unicode.ToLower tbl c) = unicode.ToLower tbl c := by
  by_cases hascii : c.toNat ≤ 0x7F
  · by_cases hup : 'A'.toNat ≤ c.toNat ∧ c.toNat ≤ 'Z'.toNat
    · have hA : 'A'.toNat = 65 := rfl
      have hZ : 'Z'.toNat = 90 := rfl
      have hval : (Char.ofNat (c.toNat + 32)).toNat = c.toNat + 32 :=
        toNat_ofNat_of_lt _ (by omega)
      have hstep : unicode.ToLower tbl c = Char.ofNat (c.toNat + 32) := by
        unfold unicode.ToLower
        rw [if_pos hascii, if_pos hup]
      rw [hstep]
      unfold unicode.ToLower
      rw [hval, if_pos (by omega), if_neg (by omega)]
    · have hstep : unicode.ToLower tbl c = c := by
        unfold unicode.ToLower
        rw [if_pos hascii, if_neg hup]
      rw [hstep, hstep]
  · have hstep : unicode.ToLower tbl c = tbl c := by
      unfold unicode.ToLower
      rw [if_neg hascii]
    rw [hstep]
    exact htbl c (by omega)

theorem strings_ToLower_idem (tbl : Char → Char)
    (htbl : ∀ c : Char, 0x7F < c.toNat → unicode.ToLower tbl (tbl c) = tbl c) (m : String) :
    strings.ToLower tbl (strings.ToLower tbl m) = strings.ToLower tbl m := by
  unfold strings.ToLower
  apply String.ext
  simp only [String.toList, List.map_map]
  apply List.map_congr_left
  intro c _
  exact unicode_ToLower_idem tbl htbl c

/-- C7: for `showLAN`, `showWiFi`, `showBLE` and `showHID`, for every session and
every identifier `m`, the response for the identifier `m` is the response for the
lower-case form of `m`. The case tables of package `unicode` are a parameter; they
are taken to send a rune outside ASCII to a rune that is already lower case. -/
theorem keyed_lookup_case_insensitive {V E : Type} (mod : RestAPI) (ext : Ext V E)
    (w : ResponseWriter V E) (r1 r2 : Request) (I : Session V E)
    (htbl : ∀ c : Char, 0x7F < c.toNat →
      unicode.ToLower ext.lowerTable (ext.lowerTable c) = ext.lowerTable c)
    (hmac : r2.Vars "mac" = strings.ToLower ext.lowerTable (r1.Vars "mac")) :
    mod.showLAN ext w r1 I = mod.showLAN ext w r2 I ∧
    mod.showWiFi ext w r1 I = mod.showWiFi ext w r2 I ∧
    mod.showBLE ext w r1 I = mod.showBLE ext w r2 I ∧
    mod.showHID ext w r1 I = mod.showHID ext w r2 I := by
  have hlow : strings.ToLower ext.lowerTable (r2.Vars "mac") =
      strings.ToLower ext.lowerTable (r1.Vars "mac") := by
    rw [hmac]
    exact strings_ToLower_idem ext.lowerTable htbl _
  refine ⟨?_, ?_, ?_, ?_⟩
  · simp only [RestAPI.showLAN, hlow]
  · simp only [RestAPI.showWiFi, hlow]
  · simp only [RestAPI.showBLE, hlow]
  · simp only [RestAPI.showHID, hlow]

/-- Witness for C7: the wireless station stored under `aa:bb:cc:dd:ee:ff` is
returned for `AA:BB:CC:DD:EE:FF` as it is for the lower-case identifier. -/
theorem keyed_lookup_witness :
    strings.ToLower sampleExt.lowerTable "AA:BB:CC:DD:EE:FF" = "aa:bb:cc:dd:ee:ff" ∧
    sampleMod.showWiFi sampleExt (ResponseWriter.fresh String Nat)
        (macRequest "/api/session/wifi/AA:BB:CC:DD:EE:FF" "AA:BB:CC:DD:EE:FF") sampleSession =
      sampleMod.showWiFi sampleExt (ResponseWriter.fresh String Nat)
        (macRequest "/api/session/wifi/aa:bb:cc:dd:ee:ff" "aa:bb:cc:dd:ee:ff") sampleSession ∧
    sampleMod.showWiFi sampleExt (ResponseWriter.fresh String Nat)
        (macRequest "/api/session/wifi/aa:bb:cc:dd:ee:ff" "aa:bb:cc:dd:ee:ff") sampleSession =
      sampleMod.toJSON (ResponseWriter.fresh String Nat) (.value "station") :=
  ⟨by decide,
    (keyed_lookup_case_insensitive sampleMod sampleExt (ResponseWriter.fresh String Nat)
      (macRequest "/api/session/wifi/AA:BB:CC:DD:EE:FF" "AA:BB:CC:DD:EE:FF")
      (macRequest "/api/session/wifi/aa:bb:cc:dd:ee:ff" "aa:bb:cc:dd:ee:ff") sampleSession
      (fun c hc => by
        show unicode.ToLower (fun c => c) c = c
        unfold unicode.ToLower
        rw [if_neg (by omega)])
      (by decide)).2.1,
    rfl⟩

/-! ## Response shaper -/

theorem hardened_setSecurityHeaders {V E : Type} (mod : RestAPI) (w : ResponseWriter V E) :
    hardened mod (mod.setSecurityHeaders w) := by
  simp [hardened, RestAPI.setSecurityHeaders, ResponseWriter.Values, ResponseWriter.Add,
    ResponseWriter.Set, canon_frame_options, canon_content_type_options, canon_xss_protection,
    canon_referrer_policy, canon_allow_origin, canon_allow_headers, canon_allow_methods]

theorem hardened_of_header {V E : Type} {mod : RestAPI} {w w1 : ResponseWriter V E}
    (h : hardened mod w) (hh : w1.header = w.header) : hardened mod w1 := by
  unfold hardened ResponseWriter.Values at *
  rw [hh]
  exact h

theorem hardened_WriteHeader {V E : Type} {mod : RestAPI} {w : ResponseWriter V E}
    (h : hardened mod w) (code : Nat) : hardened mod (w.WriteHeader code) := by
  apply hardened_of_header h
  unfold ResponseWriter.WriteHeader
  cases w.status <;> rfl

theorem hardened_Write {V E : Type} {mod : RestAPI} {w : ResponseWriter V E}
    (h : hardened mod w) (c : Chunk V E) : hardened mod (w.Write c) := by
  apply hardened_of_header h
  unfold ResponseWriter.Write ResponseWriter.WriteHeader
  cases w.status <;> rfl

theorem hardened_Set_other {V E : Type} {mod : RestAPI} {w : ResponseWriter V E}
    (h : hardened mod w) (key value : String)
    (h1 : textproto.CanonicalMIMEHeaderKey key ≠ "X-Frame-Options")
    (h2 : textproto.CanonicalMIMEHeaderKey key ≠ "X-Content-Type-Options")
    (h3 : textproto.CanonicalMIMEHeaderKey key ≠ "X-Xss-Protection")
    (h4 : textproto.CanonicalMIMEHeaderKey key ≠ "Referrer-Policy")
    (h5 : textproto.CanonicalMIMEHeaderKey key ≠ "Access-Control-Allow-Origin")
    (h6 : textproto.CanonicalMIMEHeaderKey key ≠ "Access-Control-Allow-Headers")
    (h7 : textproto.CanonicalMIMEHeaderKey key ≠ "Access-Control-Allow-Methods") :
    hardened mod (w.Set key value) := by
  unfold hardened ResponseWriter.Values ResponseWriter.Set at *
  simp only [canon_frame_options, canon_content_type_options, canon_xss_protection,
    canon_referrer_policy, canon_allow_origin, canon_allow_headers, canon_allow_methods] at *
  simp only [if_neg h1.symm, if_neg h2.symm, if_neg h3.symm, if_neg h4.symm, if_neg h5.symm,
    if_neg h6.symm, if_neg h7.symm]
  exact h

theorem hardened_Set_nosniff {V E : Type} {mod : RestAPI} {w : ResponseWriter V E}
    (h : hardened mod w) : hardened mod (w.Set "X-Content-Type-Options" "nosniff") := by
  unfold hardened ResponseWriter.Values ResponseWriter.Set at *
  simp only [canon_frame_options, canon_content_type_options, canon_xss_protection,
    canon_referrer_policy, canon_allow_origin, canon_allow_headers, canon_allow_methods] at *
  obtain ⟨a1, _, a3, a4, a5, a6, a7⟩ := h
  refine ⟨?_, ?_, ?_, ?_, ?_, ?_, ?_⟩
  · rw [if_neg (by decide)]; exact a1
  · simp
  · rw [if_neg (by decide)]; exact a3
  · rw [if_neg (by decide)]; exact a4
  · rw [if_neg (by decide)]; exact a5
  · rw [if_neg (by decide)]; exact a6
  · rw [if_neg (by decide)]; exact a7

theorem hardened_Error {V E : Type} {mod : RestAPI} {w : ResponseWriter V E}
    (h : hardened mod w) (msg : String) (code : Nat) : hardened mod (http.Error w msg code) := by
  unfold http.Error
  apply hardened_Write
  apply hardened_WriteHeader
  apply hardened_Set_nosniff
  exact hardened_Set_other h _ _ (by decide) (by decide) (by decide) (by decide) (by decide)
    (by decide) (by decide)

theorem hardened_toJSON {V E : Type} {mod : RestAPI} {w : ResponseWriter V E}
    (h : hardened mod w) (o : Obj V E) : hardened mod (mod.toJSON w o) := by
  unfold RestAPI.toJSON
  apply hardened_Write
  exact hardened_Set_other h _ _ (by decide) (by decide) (by decide) (by decide) (by decide)
    (by decide) (by decide)

theorem hardened_setAuthFailed {V E : Type} {mod : RestAPI} {w : ResponseWriter V E}
    (h : hardened mod w) (r : Request) (s : World V E) :
    hardened mod (mod.setAuthFailed w r s).1 := by
  unfold RestAPI.setAuthFailed
  apply hardened_Write
  apply hardened_WriteHeader
  exact hardened_Set_other h _ _ (by decide) (by decide) (by decide) (by decide) (by decide)
    (by decide) (by decide)

theorem hardened_runSessionCommand {V E : Type} {mod : RestAPI} {w : ResponseWriter V E}
    (h : hardened mod w) (ext : Ext V E) (r : Request) (s : World V E) :
    hardened mod (mod.runSessionCommand ext w r s).1 := by
  cases hb : r.Body with
  | none =>
    simp only [RestAPI.runSessionCommand, hb]
    exact hardened_Error h _ _
  | some body =>
    cases hd : ext.Decode body with
    | none =>
      simp only [RestAPI.runSessionCommand, hb, hd]
      exact hardened_Error h _ _
    | some cmd =>
      cases hr : (ext.Run cmd.Command s.I).2 with
      | some err =>
        simp only [RestAPI.runSessionCommand, hb, hd, hr]
        exact hardened_Error h _ _
      | none =>
        simp only [RestAPI.runSessionCommand, hb, hd, hr]
        exact hardened_toJSON h _

theorem hardened_keyed {V E : Type} {mod : RestAPI} {w : ResponseWriter V E}
    (h : hardened mod w) (ext : Ext V E) (r : Request) (I : Session V E) :
    hardened mod (mod.showLAN ext w r I) ∧ hardened mod (mod.showWiFi ext w r I) ∧
    hardened mod (mod.showBLE ext w r I) ∧ hardened mod (mod.showHID ext w r I) := by
  refine ⟨?_, ?_, ?_, ?_⟩
  · unfold RestAPI.showLAN
    simp only []
    split_ifs
    · exact hardened_toJSON h _
    · split
      · exact hardened_toJSON h _
      · exact hardened_Error h _ _
  · unfold RestAPI.showWiFi
    simp only []
    split_ifs
    · exact hardened_toJSON h _
    · split
      · exact hardened_toJSON h _
      · split
        · exact hardened_toJSON h _
        · exact hardened_Error h _ _
  · unfold RestAPI.showBLE
    simp only []
    split_ifs
    · exact hardened_toJSON h _
    · split
      · exact hardened_toJSON h _
      · exact hardened_Error h _ _
  · unfold RestAPI.showHID
    simp only []
    split_ifs
    · exact hardened_toJSON h _
    · split
      · exact hardened_toJSON h _
      · exact hardened_Error h _ _

theorem hardened_ite_fst {V E : Type} {mod : RestAPI} (c : Prop) [Decidable c]
    {a b : ResponseWriter V E × World V E} (ha : hardened mod a.1) (hb : hardened mod b.1) :
    hardened mod (if c then a else b).1 := by
  split
  · exact ha
  · exact hb

theorem hardened_dispatch {V E : Type} {mod : RestAPI} {w : ResponseWriter V E}
    (h : hardened mod w) (ext : Ext V E) (r : Request) (s : World V E) :
    hardened mod (mod.dispatch ext w r s).1 := by
  obtain ⟨hlan, hwifi, hble, hhid⟩ := hardened_keyed h ext r s.I
  have hjson : ∀ o : Obj V E, hardened mod (mod.toJSON w o) := fun o => hardened_toJSON h o
  unfold RestAPI.dispatch
  exact hardened_ite_fst _ (hjson _) <| hardened_ite_fst _ (hjson _) <|
    hardened_ite_fst _ (hjson _) <| hardened_ite_fst _ (hjson _) <|
    hardened_ite_fst _ (hjson _) <| hardened_ite_fst _ hlan <|
    hardened_ite_fst _ (hjson _) <| hardened_ite_fst _ (hjson _) <|
    hardened_ite_fst _ (hjson _) <| hardened_ite_fst _ hble <| hardened_ite_fst _ hhid <|
    hardened_ite_fst _ hwifi <| hardened_Error h _ _

theorem fst_of_eq {α β : Type} {p : α × β} {a : α} {b : β} (h : p = (a, b)) : a = p.1 := by
  rw [h]

/-! ## Dispatch -/

theorem firstMatch_cons_apply {α : Type} (F : Option Handler → α) (rule : Rule) (h : Handler)
    (rest : List (Rule × Handler)) (path : String) :
    F (firstMatch ((rule, h) :: rest) path) =
      if rule.matches path = true then F (some h) else F (firstMatch rest path) := by
  show F (if rule.matches path = true then some h else firstMatch rest path) = _
  split_ifs <;> rfl

theorem dispatch_eq_tableDispatch {V E : Type} (mod : RestAPI) (ext : Ext V E)
    (w : ResponseWriter V E) (r : Request) (s : World V E) :
    mod.dispatch ext w r s =
      (tableDispatch mod ext w r s.I, s.called (firstMatch routeTable r.URL)) := by
  have key : ∀ F : Option Handler → ResponseWriter V E × World V E,
      F (firstMatch routeTable r.URL) =
        if r.URL = "/api/session" then F (some .session)
        else if r.URL = "/api/session/env" then F (some .env)
        else if r.URL = "/api/session/gateway" then F (some .gateway)
        else if r.URL = "/api/session/interface" then F (some .interface)
        else if strings.HasPrefix r.URL "/api/session/modules" then F (some .modules)
        else if strings.HasPrefix r.URL "/api/session/lan" then F (some .lan)
        else if r.URL = "/api/session/options" then F (some .options)
        else if r.URL = "/api/session/packets" then F (some .packets)
        else if r.URL = "/api/session/started-at" then F (some .startedAt)
        else if strings.HasPrefix r.URL "/api/session/ble" then F (some .ble)
        else if strings.HasPrefix r.URL "/api/session/hid" then F (some .hid)
        else if strings.HasPrefix r.URL "/api/session/wifi" then F (some .wifi)
        else F none := by
    intro F
    unfold routeTable
    iterate 12 rw [firstMatch_cons_apply F]
    simp only [firstMatch, Rule.matches, decide_eq_true_eq]
  have h := key (fun o =>
    ((match o with
      | some h => h.run mod ext w r s.I
      | none => http.Error w "Not Found" 404), s.called o))
  unfold tableDispatch
  rw [h]
  rfl

theorem sessionRoute_get {V E : Type} (mod : RestAPI) (ext : Ext V E) (w : ResponseWriter V E)
    (r : Request) (s : World V E)
    (hauth : mod.checkAuth r = true) (hget : r.Method = "GET") (hfree : s.locked = false) :
    mod.sessionRoute ext w r s =
      .ok (tableDispatch mod ext (mod.setSecurityHeaders w) r s.I,
        { s with trace := s.trace ++
            [.lock, .handler (firstMatch routeTable r.URL), .unlock] }) := by
  have hne : ¬ ("GET" = "POST") := by decide
  unfold RestAPI.sessionRoute
  simp only [hauth, hget, hne, Bool.not_true, Bool.false_eq_true, if_false, ne_eq,
    not_true_eq_false, World.Lock, hfree, dispatch_eq_tableDispatch, World.called,
    World.Unlock, if_true, List.append_assoc, List.singleton_append, List.cons_append,
    List.nil_append]

theorem runSessionCommand_world {V E : Type} (mod : RestAPI) (ext : Ext V E)
    (w : ResponseWriter V E) (r : Request) (s : World V E) :
    (mod.runSessionCommand ext w r s).2.locked = s.locked ∧
    ((mod.runSessionCommand ext w r s).2.trace = s.trace ∨
      ∃ cmd, (mod.runSessionCommand ext w r s).2.trace = s.trace ++ [.run cmd]) := by
  cases hb : r.Body with
  | none =>
    have h : mod.runSessionCommand ext w r s = (http.Error w "Bad Request" 400, s) := by
      simp only [RestAPI.runSessionCommand, hb]
    rw [h]
    exact ⟨rfl, Or.inl rfl⟩
  | some body =>
    cases hd : ext.Decode body with
    | none =>
      have h : mod.runSessionCommand ext w r s = (http.Error w "Bad Request" 400, s) := by
        simp only [RestAPI.runSessionCommand, hb, hd]
      rw [h]
      exact ⟨rfl, Or.inl rfl⟩
    | some cmd =>
      cases hr : (ext.Run cmd.Command s.I).2 with
      | some err =>
        have h : mod.runSessionCommand ext w r s =
            (http.Error w err 400,
              { s with I := (ext.Run cmd.Command s.I).1,
                       trace := s.trace ++ [.run cmd.Command] }) := by
          simp only [RestAPI.runSessionCommand, hb, hd, hr]
        rw [h]
        exact ⟨rfl, Or.inr ⟨cmd.Command, rfl⟩⟩
      | none =>
        have h : mod.runSessionCommand ext w r s =
            (mod.toJSON w (.apiResponse { Success := true, Message := "" }),
              { s with I := (ext.Run cmd.Command s.I).1,
                       trace := s.trace ++ [.run cmd.Command] }) := by
          simp only [RestAPI.runSessionCommand, hb, hd, hr]
        rw [h]
        exact ⟨rfl, Or.inr ⟨cmd.Command, rfl⟩⟩

theorem runSessionCommand_calls_no_handler {V E : Type} (mod : RestAPI) (ext : Ext V E)
    (w : ResponseWriter V E) (r : Request) (s : World V E) (h : Option Handler) :
    Effect.handler h ∉ (mod.runSessionCommand ext w r s).2.trace.drop s.trace.length := by
  rcases (runSessionCommand_world mod ext w r s).2 with ht | ⟨cmd, ht⟩
  · rw [ht]; simp
  · rw [ht]; simp

/-- The outcomes of `sessionRoute`, by the path taken. -/
theorem sessionRoute_cases {V E : Type} (mod : RestAPI) (ext : Ext V E) (w : ResponseWriter V E)
    (r : Request) (s : World V E) :
    (mod.checkAuth r = false ∧
      mod.sessionRoute ext w r s = .ok (mod.setAuthFailed (mod.setSecurityHeaders w) r s)) ∨
    (mod.checkAuth r = true ∧ r.Method = "POST" ∧
      mod.sessionRoute ext w r s =
        .ok (mod.runSessionCommand ext (mod.setSecurityHeaders w) r s)) ∨
    (mod.checkAuth r = true ∧ r.Method ≠ "POST" ∧ r.Method ≠ "GET" ∧
      mod.sessionRoute ext w r s =
        .ok (http.Error (mod.setSecurityHeaders w) "Bad Request" 400, s)) ∨
    (mod.checkAuth r = true ∧ r.Method = "GET" ∧ s.locked = false ∧
      mod.sessionRoute ext w r s =
        .ok (tableDispatch mod ext (mod.setSecurityHeaders w) r s.I,
          { s with trace := s.trace ++
              [.lock, .handler (firstMatch routeTable r.URL), .unlock] })) ∨
    (mod.checkAuth r = true ∧ r.Method = "GET" ∧ s.locked = true ∧
      mod.sessionRoute ext w r s = .error .blocked) := by
  cases hauth : mod.checkAuth r with
  | false =>
    left
    exact ⟨rfl, by simp [RestAPI.sessionRoute, hauth]⟩
  | true =>
    right
    by_cases hpost : r.Method = "POST"
    · left
      exact ⟨rfl, hpost, by simp [RestAPI.sessionRoute, hauth, hpost]⟩
    · right
      by_cases hget : r.Method = "GET"
      · right
        rcases Bool.eq_false_or_eq_true s.locked with hl | hl
        · right
          have hne : ¬ ("GET" = "POST") := by decide
          exact ⟨rfl, hget, hl,
            by simp [RestAPI.sessionRoute, hauth, hget, hne, World.Lock, hl]⟩
        · left
          exact ⟨rfl, hget, hl, sessionRoute_get mod ext w r s hauth hget hl⟩
      · left
        exact ⟨rfl, hpost, hget, by simp [RestAPI.sessionRoute, hauth, hpost, hget]⟩

/-! ## Response shaper: every outcome -/

/-- C8 (counterexample): in streaming mode an authenticated `GET` of `eventsRoute` is
answered by whatever the streaming subsystem returns; with a subsystem that takes
the connection over and answers the upgrade itself, the response has no
`X-Frame-Options` header and does not carry the hardening set. -/
theorem streaming_outcome_counterexample :
    streamingMod.useWebsocket = true ∧
    streamingMod.checkAuth (eventsRequest []) = true ∧
    streamingMod.eventsRoute upgradingExt (ResponseWriter.fresh String Nat) (eventsRequest [])
        sampleWorld = .ok (upgradeResponse, sampleWorld) ∧
    upgradeResponse.Values "X-Frame-Options" = [] ∧
    ¬ hardened streamingMod upgradeResponse := by
  refine ⟨rfl, by decide, ?_, by decide, by decide⟩
  have hauth : streamingMod.checkAuth (eventsRequest []) = true := by decide
  simp only [RestAPI.eventsRoute, hauth, Bool.not_true, Bool.false_eq_true, if_false]
  rfl

/-- C8 (amended): `setSecurityHeaders` attaches the hardening headers
(`X-Frame-Options: DENY`, `X-Content-Type-Options: nosniff`,
`X-XSS-Protection: 1; mode=block`, `Referrer-Policy: same-origin`) and the CORS
headers to any writer, whatever the request. The response of `corsRoute`, every
response returned by `sessionRoute` and every response returned by `eventsRoute`
other than the hand-off to the streaming subsystem (401, 400, the event window,
the clear) carries them. In streaming mode an authenticated `GET` of `eventsRoute`
returns what the streaming subsystem returns for the writer that carries them. On
an authentication failure the 401 response is written on the writer that already
carries them. -/
theorem security_headers_outside_streaming {V E : Type} (mod : RestAPI) (ext : Ext V E)
    (w : ResponseWriter V E) (r : Request) (s : World V E) :
    hardened mod (mod.setSecurityHeaders w) ∧
    hardened mod (mod.corsRoute w r) ∧
    (∀ w1 s1, mod.sessionRoute ext w r s = .ok (w1, s1) → hardened mod w1) ∧
    (∀ w1 s1, mod.eventsRoute ext w r s = .ok (w1, s1) →
      ¬ (mod.useWebsocket = true ∧ mod.checkAuth r = true ∧ r.Method = "GET") →
      hardened mod w1) ∧
    (mod.useWebsocket = true → mod.checkAuth r = true → r.Method = "GET" →
      mod.eventsRoute ext w r s =
        .ok (ext.startStreamingEvents (mod.setSecurityHeaders w) r s)) ∧
    (mod.checkAuth r = false →
      mod.sessionRoute ext w r s = .ok (mod.setAuthFailed (mod.setSecurityHeaders w) r s) ∧
      mod.eventsRoute ext w r s = .ok (mod.setAuthFailed (mod.setSecurityHeaders w) r s)) := by
  have h0 := hardened_setSecurityHeaders mod w
  refine ⟨h0, hardened_WriteHeader h0 204, ?_, ?_, ?_, ?_⟩
  · intro w1 s1 hres
    rcases sessionRoute_cases mod ext w r s with
      ⟨_, h⟩ | ⟨_, _, h⟩ | ⟨_, _, _, h⟩ | ⟨_, _, _, h⟩ | ⟨_, _, _, h⟩
    · rw [h, Except.ok.injEq] at hres
      rw [fst_of_eq hres]
      exact hardened_setAuthFailed h0 r s
    · rw [h, Except.ok.injEq] at hres
      rw [fst_of_eq hres]
      exact hardened_runSessionCommand h0 ext r s
    · rw [h, Except.ok.injEq] at hres
      rw [fst_of_eq hres]
      exact hardened_Error h0 _ _
    · rw [h, Except.ok.injEq] at hres
      rw [fst_of_eq hres]
      have hd := hardened_dispatch h0 ext r s
      rw [dispatch_eq_tableDispatch] at hd
      exact hd
    · rw [h] at hres
      exact absurd hres (by simp)
  · intro w1 s1 hres hns
    unfold RestAPI.eventsRoute at hres
    simp only [] at hres
    cases hauth : mod.checkAuth r with
    | false =>
      simp only [hauth, Bool.not_false, if_true, Except.ok.injEq] at hres
      rw [fst_of_eq hres]
      exact hardened_setAuthFailed h0 r s
    | true =>
      simp only [hauth, Bool.not_true, Bool.false_eq_true, if_false] at hres
      by_cases hget : r.Method = "GET"
      · simp only [hget, if_true] at hres
        unfold RestAPI.showEvents at hres
        cases hws : mod.useWebsocket with
        | true => exact absurd ⟨hws, hauth, hget⟩ hns
        | false =>
          simp only [hws, Bool.false_eq_true, if_false] at hres
          split at hres
          · simp at hres
          · simp only [Except.ok.injEq] at hres
            rw [fst_of_eq hres]
            exact hardened_toJSON h0 _
      · by_cases hdel : r.Method = "DELETE"
        · have hne : ¬ ("DELETE" = "GET") := by decide
          simp only [hdel, hne, if_true, if_false, Except.ok.injEq] at hres
          rw [fst_of_eq hres]
          exact h0
        · simp only [hget, hdel, if_false, Except.ok.injEq] at hres
          rw [fst_of_eq hres]
          exact hardened_Error h0 _ _
  · intro hws hauth hget
    simp [RestAPI.eventsRoute, RestAPI.showEvents, hauth, hget, hws]
  · intro hauth
    constructor
    · simp [RestAPI.sessionRoute, hauth]
    · simp [RestAPI.eventsRoute, hauth]

/-- Witness for C8 (amended): the pull-mode window and the clear of the sample
deployment carry the headers, and so does the 404 of an unknown session path. -/
theorem security_headers_witness :
    hardened sampleMod (sampleMod.toJSON
      (sampleMod.setSecurityHeaders (ResponseWriter.fresh String Nat)) (.events [4, 5])) ∧
    hardened sampleMod (http.Error
      (sampleMod.setSecurityHeaders (ResponseWriter.fresh String Nat)) "Not Found" 404) :=
  ⟨(security_headers_outside_streaming sampleMod sampleExt (ResponseWriter.fresh String Nat)
      (eventsRequest ["2"]) sampleWorld).2.2.2.1 _ sampleWorld
        (by
          have hauth : sampleMod.checkAuth (eventsRequest ["2"]) = true := by decide
          simp only [RestAPI.eventsRoute, hauth, Bool.not_true, Bool.false_eq_true, if_false]
          rfl)
        (by decide),
    (security_headers_outside_streaming sampleMod sampleExt (ResponseWriter.fresh String Nat)
      (macRequest "/api/session/nothing" "") sampleWorld).2.2.1 _
        ⟨sampleSession, false, [.lock, .handler none, .unlock]⟩
        (sessionRoute_get sampleMod sampleExt _ _ sampleWorld (by decide) rfl rfl)⟩

/-! ## Dispatch of the session route -/

/-- C9 (counterexample): an authenticated `GET` whose request path is the
exact-match endpoint `/api/session/env` and whose query string is `x=1` has the
URL `/api/session/env?x=1`; no rule of the table matches it, and `sessionRoute`
answers 404 `Not Found` through the default case instead of calling `showEnv`. -/
theorem sessionRoute_query_string_counterexample :
    requestURL "/api/session/env" "x=1" = "/api/session/env?x=1" ∧
    sampleMod.checkAuth (macRequest (requestURL "/api/session/env" "x=1") "") = true ∧
    firstMatch routeTable (requestURL "/api/session/env" "x=1") = none ∧
    sampleMod.sessionRoute sampleExt (ResponseWriter.fresh String Nat)
        (macRequest (requestURL "/api/session/env" "x=1") "") sampleWorld =
      .ok (http.Error (sampleMod.setSecurityHeaders (ResponseWriter.fresh String Nat))
          "Not Found" 404,
        ⟨sampleSession, false, [.lock, .handler none, .unlock]⟩) ∧
    (http.Error (sampleMod.setSecurityHeaders (ResponseWriter.fresh String Nat))
      "Not Found" 404).status = some 404 ∧
    (sampleMod.showEnv (sampleMod.setSecurityHeaders (ResponseWriter.fresh String Nat))
      (macRequest (requestURL "/api/session/env" "x=1") "") sampleSession).status = some 200 :=
  ⟨by decide, by decide, by decide,
    sessionRoute_get sampleMod sampleExt _ _ sampleWorld (by decide) rfl rfl, rfl, rfl⟩

/-- C9 (amended): for a request to `sessionRoute` that passes authentication: a
`POST` is answered by `runSessionCommand` alone, which calls no introspection
handler; a method that is neither `GET` nor `POST` is answered with 400
`Bad Request`, the state unchanged; a `GET` (with the session lock free) is
answered by the handler of the first rule of the fixed table (session, env,
gateway, interface, modules*, lan*, options, packets, started-at, ble*, hid*,
wifi*) that matches the URL of the request as `r.URL.String()` gives it (the path,
followed by `?` and the query when there is one), and with 404 `Not Found` when no
rule matches; that handler is the one call the `switch` makes. A `GET` whose URL is
the path of an exact-match endpoint, without a query string, selects that
endpoint's handler. Paths carry the prefix `/api`. -/
theorem sessionRoute_dispatch {V E : Type} (mod : RestAPI) (ext : Ext V E)
    (w : ResponseWriter V E) (r : Request) (s : World V E)
    (hauth : mod.checkAuth r = true) :
    (r.Method = "POST" →
      mod.sessionRoute ext w r s =
        .ok (mod.runSessionCommand ext (mod.setSecurityHeaders w) r s) ∧
      ∀ h, Effect.handler h ∉
        (mod.runSessionCommand ext (mod.setSecurityHeaders w) r s).2.trace.drop s.trace.length) ∧
    (r.Method ≠ "POST" → r.Method ≠ "GET" →
      mod.sessionRoute ext w r s =
        .ok (http.Error (mod.setSecurityHeaders w) "Bad Request" 400, s)) ∧
    (r.Method = "GET" → s.locked = false →
      mod.sessionRoute ext w r s =
        .ok (match firstMatch routeTable r.URL with
            | some h => h.run mod ext (mod.setSecurityHeaders w) r s.I
            | none => http.Error (mod.setSecurityHeaders w) "Not Found" 404,
          { s with trace := s.trace ++
              [.lock, .handler (firstMatch routeTable r.URL), .unlock] })) ∧
    firstMatch routeTable (requestURL "/api/session" "") = some .session ∧
    firstMatch routeTable (requestURL "/api/session/env" "") = some .env ∧
    firstMatch routeTable (requestURL "/api/session/gateway" "") = some .gateway ∧
    firstMatch routeTable (requestURL "/api/session/interface" "") = some .interface ∧
    firstMatch routeTable (requestURL "/api/session/modules" "") = some .modules ∧
    firstMatch routeTable (requestURL "/api/session/options" "") = some .options ∧
    firstMatch routeTable (requestURL "/api/session/packets" "") = some .packets ∧
    firstMatch routeTable (requestURL "/api/session/started-at" "") = some .startedAt := by
  refine ⟨?_, ?_, ?_, by decide, by decide, by decide, by decide, by decide, by decide,
    by decide, by decide⟩
  · intro hpost
    refine ⟨by simp [RestAPI.sessionRoute, hauth, hpost], ?_⟩
    intro h
    exact runSessionCommand_calls_no_handler mod ext _ r s h
  · intro hpost hget
    simp [RestAPI.sessionRoute, hauth, hpost, hget]
  · intro hget hfree
    rw [sessionRoute_get mod ext w r s hauth hget hfree]
    rfl

/-- Witness for C9 (amended): an authenticated `GET /api/session/env` is answered by
`showEnv`, the one handler called; an authenticated `PUT` with 400. -/
theorem sessionRoute_dispatch_witness :
    sampleMod.checkAuth (macRequest "/api/session/env" "") = true ∧
    sampleMod.sessionRoute sampleExt (ResponseWriter.fresh String Nat)
        (macRequest "/api/session/env" "") sampleWorld =
      .ok (sampleMod.showEnv (sampleMod.setSecurityHeaders (ResponseWriter.fresh String Nat))
          (macRequest "/api/session/env" "") sampleSession,
        ⟨sampleSession, false, [.lock, .handler (some .env), .unlock]⟩) ∧
    sampleMod.sessionRoute sampleExt (ResponseWriter.fresh String Nat)
        (sampleRequest "PUT" "/api/session/env" (some ("admin", "s3cret"))) sampleWorld =
      .ok (http.Error (sampleMod.setSecurityHeaders (ResponseWriter.fresh String Nat))
        "Bad Request" 400, sampleWorld) :=
  ⟨by decide,
    (sessionRoute_dispatch sampleMod sampleExt (ResponseWriter.fresh String Nat)
      (macRequest "/api/session/env" "") sampleWorld (by decide)).2.2.1 rfl rfl,
    (sessionRoute_dispatch sampleMod sampleExt (ResponseWriter.fresh String Nat)
      (sampleRequest "PUT" "/api/session/env" (some ("admin", "s3cret"))) sampleWorld
      (by decide)).2.1 (by decide) (by decide)⟩

/-! ## Session lock -/

theorem handlersUnderLock_bracket (h : Option Handler) :
    handlersUnderLock false [.lock, .handler h, .unlock] = true := rfl

/-- C10: with the session lock as explicit state and the handler calls in the
trace, for every request to `sessionRoute`: on the 401 path, the `POST` path
and the 400 path the call returns with the lock state it found and neither `Lock`
nor `Unlock` nor a handler call in the trace (on the `POST` path the only call that
may be added is the interpreter's `Run`); on the authenticated `GET` path with the
lock free, the lock is taken, the `switch` runs in the state where the lock is
held and leaves it held, its handler call (or default case) is entered between
`lock` and `unlock`, the lock is released on return, and the lock state after the
request is the lock state before it; with the lock not free the `GET` path does
not proceed. Whatever the path, when `sessionRoute` returns the lock state is the one
it found, every handler call it added to the trace was made with the lock held,
and a `Lock` was added only for an authenticated `GET`. -/
theorem session_lock_discipline {V E : Type} (mod : RestAPI) (ext : Ext V E)
    (w : ResponseWriter V E) (r : Request) (s : World V E) :
    (mod.checkAuth r = false →
      ∃ w1 s1, mod.sessionRoute ext w r s = .ok (w1, s1) ∧ s1.locked = s.locked ∧
        Effect.lock ∉ s1.trace.drop s.trace.length ∧
        Effect.unlock ∉ s1.trace.drop s.trace.length ∧
        ∀ h, Effect.handler h ∉ s1.trace.drop s.trace.length) ∧
    (mod.checkAuth r = true → r.Method = "POST" →
      ∃ w1 s1, mod.sessionRoute ext w r s = .ok (w1, s1) ∧ s1.locked = s.locked ∧
        (s1.trace = s.trace ∨ ∃ cmd, s1.trace = s.trace ++ [.run cmd])) ∧
    (mod.checkAuth r = true → r.Method ≠ "POST" → r.Method ≠ "GET" →
      ∃ w1, mod.sessionRoute ext w r s = .ok (w1, s)) ∧
    (mod.checkAuth r = true → r.Method = "GET" → s.locked = false →
      ∃ held released, s.Lock = .ok held ∧ held.locked = true ∧ held.I = s.I ∧
        held.trace = s.trace ++ [.lock] ∧
        (mod.dispatch ext (mod.setSecurityHeaders w) r held).2.locked = true ∧
        (mod.dispatch ext (mod.setSecurityHeaders w) r held).2.trace =
          held.trace ++ [.handler (firstMatch routeTable r.URL)] ∧
        (mod.dispatch ext (mod.setSecurityHeaders w) r held).2.Unlock = .ok released ∧
        mod.sessionRoute ext w r s =
          .ok ((mod.dispatch ext (mod.setSecurityHeaders w) r held).1, released) ∧
        released.locked = s.locked ∧ released.I = s.I ∧
        released.trace = s.trace ++
          [.lock, .handler (firstMatch routeTable r.URL), .unlock]) ∧
    (mod.checkAuth r = true → r.Method = "GET" → s.locked = true →
      mod.sessionRoute ext w r s = .error .blocked) ∧
    (∀ w1 s1, mod.sessionRoute ext w r s = .ok (w1, s1) →
      s1.locked = s.locked ∧
      ∃ added, s1.trace = s.trace ++ added ∧ handlersUnderLock s.locked added = true ∧
        (Effect.lock ∈ added → mod.checkAuth r = true ∧ r.Method = "GET")) := by
  refine ⟨?_, ?_, ?_, ?_, ?_, ?_⟩
  · intro hauth
    refine ⟨(mod.setAuthFailed (mod.setSecurityHeaders w) r s).1,
      (mod.setAuthFailed (mod.setSecurityHeaders w) r s).2, ?_, ?_, ?_, ?_, ?_⟩
    · simp only [RestAPI.sessionRoute, hauth, Bool.not_false, if_true]
    · rfl
    · simp [RestAPI.setAuthFailed]
    · simp [RestAPI.setAuthFailed]
    · intro h
      simp [RestAPI.setAuthFailed]
  · intro hauth hpost
    refine ⟨(mod.runSessionCommand ext (mod.setSecurityHeaders w) r s).1,
      (mod.runSessionCommand ext (mod.setSecurityHeaders w) r s).2, ?_, ?_, ?_⟩
    · simp only [RestAPI.sessionRoute, hauth, hpost, Bool.not_true, Bool.false_eq_true,
        if_false, if_true]
    · exact (runSessionCommand_world mod ext _ r s).1
    · exact (runSessionCommand_world mod ext _ r s).2
  · intro hauth hpost hget
    exact ⟨http.Error (mod.setSecurityHeaders w) "Bad Request" 400,
      by simp [RestAPI.sessionRoute, hauth, hpost, hget]⟩
  · intro hauth hget hfree
    refine ⟨{ s with locked := true, trace := s.trace ++ [.lock] },
      { s with trace := s.trace ++ [.lock, .handler (firstMatch routeTable r.URL), .unlock] },
      ?_, rfl, rfl, rfl, ?_, ?_, ?_, ?_, rfl, rfl, rfl⟩
    · simp [World.Lock, hfree]
    · rw [dispatch_eq_tableDispatch]
      rfl
    · rw [dispatch_eq_tableDispatch]
      rfl
    · rw [dispatch_eq_tableDispatch]
      simp [World.Unlock, World.called, hfree]
    · rw [sessionRoute_get mod ext w r s hauth hget hfree, dispatch_eq_tableDispatch]
  · intro hauth hget hheld
    have hne : ¬ ("GET" = "POST") := by decide
    simp [RestAPI.sessionRoute, hauth, hget, hne, World.Lock, hheld]
  · intro w1 s1 hres
    rcases sessionRoute_cases mod ext w r s with
      ⟨_, h⟩ | ⟨_, _, h⟩ | ⟨_, _, _, h⟩ | ⟨ha, hg, hl, h⟩ | ⟨_, _, _, h⟩
    · rw [h, Except.ok.injEq] at hres
      have hs : s1 = (mod.setAuthFailed (mod.setSecurityHeaders w) r s).2 := by rw [hres]
      rw [hs]
      refine ⟨rfl, _, rfl, ?_, ?_⟩
      · cases s.locked <;> rfl
      · intro hmem
        simp at hmem
    · rw [h, Except.ok.injEq] at hres
      have hs : s1 = (mod.runSessionCommand ext (mod.setSecurityHeaders w) r s).2 := by
        rw [hres]
      rw [hs]
      refine ⟨(runSessionCommand_world mod ext _ r s).1, ?_⟩
      rcases (runSessionCommand_world mod ext (mod.setSecurityHeaders w) r s).2 with
        ht | ⟨cmd, ht⟩
      · refine ⟨[], by rw [ht, List.append_nil], ?_, ?_⟩
        · cases s.locked <;> rfl
        · intro hmem
          simp at hmem
      · refine ⟨[.run cmd], ht, ?_, ?_⟩
        · cases s.locked <;> rfl
        · intro hmem
          simp at hmem
    · rw [h, Except.ok.injEq] at hres
      have hs : s1 = s := (congrArg Prod.snd hres).symm
      rw [hs]
      refine ⟨rfl, [], by rw [List.append_nil], ?_, ?_⟩
      · cases s.locked <;> rfl
      · intro hmem
        simp at hmem
    · rw [h, Except.ok.injEq] at hres
      have hs : s1 = { s with trace := s.trace ++
          [.lock, .handler (firstMatch routeTable r.URL), .unlock] } :=
        (congrArg Prod.snd hres).symm
      rw [hs]
      refine ⟨rfl, _, rfl, ?_, fun _ => ⟨ha, hg⟩⟩
      rw [hl]
      exact handlersUnderLock_bracket _
    · rw [h] at hres
      exact absurd hres (by simp)

/-- Witness for C10: on the sample session with the lock free, an authenticated
`GET /api/session/env` returns with the lock free again and the trace
`[lock, handler env, unlock]`; with the lock held the `GET` does not proceed. -/
theorem session_lock_witness :
    sampleMod.sessionRoute sampleExt (ResponseWriter.fresh String Nat)
        (macRequest "/api/session/env" "") sampleWorld =
      .ok ((sampleMod.dispatch sampleExt
          (sampleMod.setSecurityHeaders (ResponseWriter.fresh String Nat))
          (macRequest "/api/session/env" "") ⟨sampleSession, true, [.lock]⟩).1,
        ⟨sampleSession, false, [.lock, .handler (some .env), .unlock]⟩) ∧
    handlersUnderLock false [.lock, .handler (some .env), .unlock] = true ∧
    handlersUnderLock false [.handler (some .env), .lock, .unlock] = false ∧
    handlersUnderLock false [.lock, .unlock, .handler (some .env)] = false ∧
    sampleMod.sessionRoute sampleExt (ResponseWriter.fresh String Nat)
        (macRequest "/api/session/env" "") ⟨sampleSession, true, []⟩ = .error .blocked := by
  have h := session_lock_discipline sampleMod sampleExt (ResponseWriter.fresh String Nat)
    (macRequest "/api/session/env" "") sampleWorld
  have h2 := session_lock_discipline sampleMod sampleExt (ResponseWriter.fresh String Nat)
    (macRequest "/api/session/env" "") ⟨sampleSession, true, []⟩
  obtain ⟨held, released, hl, _, _, _, _, _, hu, hres, _, _, _⟩ :=
    h.2.2.2.1 (by decide) rfl rfl
  refine ⟨?_, rfl, rfl, rfl, h2.2.2.2.2.1 (by decide) rfl rfl⟩
  rw [hres]
  simp only [World.Lock, sampleWorld, Bool.false_eq_true, if_false, Except.ok.injEq] at hl
  subst hl
  have hd := dispatch_eq_tableDispatch sampleMod sampleExt
    (sampleMod.setSecurityHeaders (ResponseWriter.fresh String Nat))
    (macRequest "/api/session/env" "") ⟨sampleSession, true, [] ++ [.lock]⟩
  rw [hd] at hu
  simp only [World.Unlock, World.called, if_true, Except.ok.injEq] at hu
  subst hu
  rfl

end ApiRest
